import Mathlib

/-!
Shallow embedding of the payment data transformation and next-action
resolution engine of the repository (crates/router/src/core/payments/
transformers.rs), together with theorems checking the natural-language
specification against it.

Conventions of the embedding:
* Rust `Option<T>` becomes `Option T`; fallible code returns
  `Except ApiError _` mirroring `RouterResult`.
* The opaque connector-metadata JSON blob is parsed on demand in the
  source into several named shapes; we model a blob as a record whose
  fields hold the outcome of each typed parse attempt (`none` = that
  parse fails, `some v` = it succeeds with `v`).  Independent fields let
  one blob satisfy several shapes at once, as JSON can.
* Money amounts are `Int` minor units (`MinorUnit` in the source).
-/

namespace Hyperswitch

abbrev MinorUnit := Int

/-- Currencies (enum in the source; only the tag matters here). -/
inductive Currency
  | USD
  | EUR
  | INR
deriving DecidableEq, Repr

/-- diesel_models::enums::PaymentMethod (subset of variants used by the core). -/
inductive PaymentMethod
  | card
  | wallet
  | bankTransfer
  | voucher
  | openBanking
  | payLater
deriving DecidableEq, Repr

/-- diesel_models::enums::PaymentMethodType (subset of variants used by the core). -/
inductive PaymentMethodType
  | pix
  | openBankingPIS
  | applePay
  | upiCollect
  | otherType
deriving DecidableEq, Repr

/-- enums::IntentStatus (subset). -/
inductive IntentStatus
  | requiresCustomerAction
  | requiresCapture
  | processing
  | succeeded
  | failed
deriving DecidableEq, Repr

/-- enums::AttemptStatus (subset). -/
inductive AttemptStatus
  | started
  | authorized
  | charged
  | pending
  | failure
deriving DecidableEq, Repr

/-- services::AuthFlow. -/
inductive AuthFlow
  | merchant
  | client
deriving DecidableEq, Repr

/-- The operations relevant to response synthesis.  The source inspects the
operation only through its `Debug` rendering (`format!("{operation:?}")`). -/
inductive Operation
  | paymentConfirm
  | paymentStart
  | paymentStatus
  | paymentCreate
deriving DecidableEq, Repr

/-- Debug rendering of an operation, as `format!("{operation:?}")` produces. -/
def opDebugName : Operation → String
  | .paymentConfirm => "PaymentConfirm"
  | .paymentStart => "PaymentStart"
  | .paymentStatus => "PaymentStatus"
  | .paymentCreate => "PaymentCreate"

/-- Modelled from the spec: `payments::is_start_pay` (helpers module, outside
src/) distinguishes the start-pay operation from all others (§4.4 form-redirect
branch). -/
def is_start_pay (op : Operation) : Bool :=
  match op with
  | .paymentStart => true
  | _ => false

/-- errors::ApiErrorResponse, restricted to the kinds this core produces (§7). -/
inductive ApiError
  | missingRequiredValue (field : String)
  | invalidDataValue (field : String)
  | internalServerError
  | resourceIdNotFound
  | merchantConnectorAccountDisabled
deriving DecidableEq, Repr

/-- api_models::payments::QrCodeInformation: three flavors chosen by which
fields the connector metadata contains. -/
inductive QrCodeInformation
  | qrCodeUrl (image_data_url : String) (qr_code_url : String)
      (display_to_timestamp : Option Int)
  | qrDataUrl (image_data_url : String) (display_to_timestamp : Option Int)
  | qrCodeImageUrl (qr_code_url : String) (display_to_timestamp : Option Int)
deriving DecidableEq, Repr

/-- api_models::payments::BankTransferNextStepsData (opaque payload here). -/
structure BankTransferNextStepsData where
  steps_and_charges : String
deriving DecidableEq, Repr

/-- api_models::payments::VoucherNextStepData (opaque payload here). -/
structure VoucherNextStepData where
  voucher_details : String
deriving DecidableEq, Repr

/-- api_models::payments::SdkNextActionData (PayPal SDK payload, opaque here). -/
structure SdkNextActionData where
  next_action : String
deriving DecidableEq, Repr

/-- api_models::payments::FetchQrCodeInformation. -/
structure FetchQrCodeInformation where
  qr_code_fetch_url : String
deriving DecidableEq, Repr

/-- api_models::payments::WaitScreenInstructions. -/
structure WaitScreenInstructions where
  display_from_timestamp : Int
  display_to_timestamp : Option Int
deriving DecidableEq, Repr

/-- api_models::payments::PollConfigResponse. -/
structure PollConfigResponse where
  poll_id : String
  delay_in_secs : Int
  frequency : Int
deriving DecidableEq, Repr

/-- api_models::payments::ThreeDsMethodData::AcsThreeDsMethodData. -/
structure ThreeDsMethodData where
  three_ds_method_data_submission : Bool
  three_ds_method_data : Option String
  three_ds_method_url : Option String
deriving DecidableEq, Repr

/-- api_models::payments::ThreeDsData. -/
structure ThreeDsData where
  three_ds_authentication_url : String
  three_ds_authorize_url : String
  three_ds_method_details : ThreeDsMethodData
  poll_config : PollConfigResponse
  message_version : Option String
  directory_server_id : Option String
deriving DecidableEq, Repr

/-- Session tokens are opaque to this core. -/
structure SessionToken where
  token : String
deriving DecidableEq, Repr

/-- api_models::payments::NextActionData: the single tagged next-action
descriptor (§3). -/
inductive NextActionData
  | displayBankTransferInformation
      (bank_transfer_steps_and_charges_details : BankTransferNextStepsData)
  | displayVoucherInformation (voucher_details : VoucherNextStepData)
  | qrCodeInformation (image_data_url : Option String)
      (qr_code_url : Option String) (display_to_timestamp : Option Int)
  | fetchQrCodeInformation (qr_code_fetch_url : String)
  | invokeSdkClient (next_action_data : SdkNextActionData)
  | waitScreenInformation (display_from_timestamp : Int)
      (display_to_timestamp : Option Int)
  | redirectToUrl (redirect_to_url : String)
  | threeDsInvoke (three_ds_data : ThreeDsData)
  | thirdPartySdkSessionToken (session_token : Option SessionToken)
deriving DecidableEq, Repr

/-- The opaque connector-metadata JSON blob of a payment attempt, modelled by
the outcome of every typed parse the source attempts on it.  A field is
`some v` when `metadata.parse_value::<Shape>(..)` succeeds with `v` and `none`
when that parse fails. -/
structure ConnectorMetadata where
  next_steps_bank : Option BankTransferNextStepsData
  next_steps_voucher : Option VoucherNextStepData
  qr_code : Option QrCodeInformation
  fetch_qr : Option FetchQrCodeInformation
  sdk_next_action : Option SdkNextActionData
  wait_screen : Option WaitScreenInstructions
  meta_txn_id : Option String
deriving DecidableEq, Repr

/-- services::RedirectForm (opaque redirect form payload). -/
structure RedirectForm where
  form : String
deriving DecidableEq, Repr

/-- The attempt's `authentication_data` JSON blob: its parse outcome into a
`RedirectForm` (`serde_json::from_value` in the source). -/
structure AuthenticationDataBlob where
  redirect_form : Option RedirectForm
deriving DecidableEq, Repr

/-- types::BrowserInformation (opaque payload here). -/
structure BrowserInformation where
  info : String
deriving DecidableEq, Repr

/-- api_models::payments::AdditionalPaymentData (opaque payload here). -/
structure AdditionalPaymentData where
  data : String
deriving DecidableEq, Repr

/-- hyperswitch_domain_models::payments::payment_intent::CustomerData: the
decoded customer-details blob stored on the intent. -/
structure CustomerData where
  name : Option String
  email : Option String
  phone : Option String
  phone_country_code : Option String
deriving DecidableEq, Repr

/-- domain::Customer: the customer-table record (fields this core reads). -/
structure Customer where
  customer_id : String
  name : Option String
  email : Option String
  phone : Option String
  phone_country_code : Option String
deriving DecidableEq, Repr

/-- api_models::payments::CustomerDetailsResponse. -/
structure CustomerDetailsResponse where
  id : Option String
  name : Option String
  email : Option String
  phone : Option String
  phone_country_code : Option String
deriving DecidableEq, Repr

/-- storage::PaymentAttempt: one connector-facing try (fields this core
reads).  JSON-blob fields carry their parse outcomes, see `ConnectorMetadata`.
The field `payment_method_data_parsed` is the outcome of parsing the attempt's
`payment_method_data` blob into `AdditionalPaymentData`, `browser_info_parsed`
that of parsing `browser_info` into `BrowserInformation`; the outer `Option`
is the blob's presence, the inner the parse result. -/
structure PaymentAttempt where
  payment_id : String
  merchant_id : String
  attempt_id : String
  status : AttemptStatus
  amount : MinorUnit
  net_amount : MinorUnit
  amount_capturable : MinorUnit
  amount_to_capture : Option MinorUnit
  surcharge_amount : Option MinorUnit
  tax_amount : Option MinorUnit
  currency : Option Currency
  payment_method : Option PaymentMethod
  payment_method_type : Option PaymentMethodType
  connector : Option String
  connector_transaction_id : Option String
  connector_metadata : Option ConnectorMetadata
  authentication_type : Option String
  authentication_data : Option AuthenticationDataBlob
  browser_info_parsed : Option (Option BrowserInformation)
  payment_method_data_parsed : Option (Option AdditionalPaymentData)
  error_code : Option String
  error_message : Option String
  error_reason : Option String
  cancellation_reason : Option String
  payment_token : Option String
  capture_method : Option String
  payment_experience : Option String
  mandate_id : Option String
  confirm : Bool
  encoded_data : Option String
  business_sub_label : Option String
  unified_code : Option String
  unified_message : Option String
  external_three_ds_authentication_attempted : Option Bool
  payment_method_id : Option String
  charge_id : Option String
  merchant_connector_id : Option String
  connector_response_reference_id : Option String
deriving DecidableEq, Repr

/-- The intent-level `connector_metadata` blob parsed into
api_models::payments::ConnectorMetadata (only the noon order category is
read by this core). -/
structure IntentConnectorMetadata where
  noon_order_category : Option String
deriving DecidableEq, Repr

/-- api_models::payments::PaymentChargeRequest (opaque fields here). -/
structure PaymentChargeRequest where
  charge_type : String
  fees : Int
  transfer_account_id : String
deriving DecidableEq, Repr

/-- types::PaymentCharges (the shape the authorize builder parses the charges
blob into; opaque payload here). -/
structure PaymentCharges where
  charges : String
deriving DecidableEq, Repr

/-- The intent's charges JSON blob, modelled by the outcomes of the two typed
parses the source attempts on it: into `PaymentChargeRequest` (response
synthesis) and into `Option PaymentCharges` (authorize builder). -/
structure ChargesBlob where
  as_payment_charge_request : Option PaymentChargeRequest
  as_payment_charges : Option (Option PaymentCharges)
deriving DecidableEq, Repr

/-- api_models::payments::OrderDetailsWithAmount (opaque payload here). -/
structure OrderDetailsWithAmount where
  product_name : String
  quantity : Nat
  amount : Int
deriving DecidableEq, Repr

/-- common_enums::RequestIncrementalAuthorization. -/
inductive RequestIncrementalAuthorization
  | reqTrue
  | reqFalse
  | reqDefault
deriving DecidableEq, Repr

/-- storage::PaymentIntent (fields this core reads).  Blob fields carry parse
outcomes: outer `Option` = blob present, inner `Option` = decode succeeded. -/
structure PaymentIntent where
  payment_id : String
  merchant_id : String
  status : IntentStatus
  amount : MinorUnit
  amount_captured : Option MinorUnit
  currency : Option Currency
  customer_details : Option (Option CustomerData)
  client_secret : Option String
  created_at : Int
  modified_at : Int
  description : Option String
  return_url : Option String
  metadata : Option String
  order_details : Option (List (Option OrderDetailsWithAmount))
  connector_metadata : Option (Option IntentConnectorMetadata)
  charges : Option ChargesBlob
  setup_future_usage : Option String
  statement_descriptor_name : Option String
  statement_descriptor_suffix : Option String
  business_country : Option String
  business_label : Option String
  allowed_payment_method_types : Option String
  merchant_decision : Option String
  payment_confirm_source : Option String
  feature_metadata : Option String
  frm_metadata : Option String
  fingerprint_id : Option String
  profile_id : Option String
  attempt_count : Int
  merchant_connector_id : Option String
  incremental_authorization_allowed : Option Bool
  authorization_count : Option Int
  session_expiry : Option Int
  request_incremental_authorization : Option RequestIncrementalAuthorization
  merchant_order_reference_id : Option String
deriving DecidableEq, Repr

/-- api_models::payments::MandateIds (fields this core reads). -/
structure MandateIds where
  mandate_id : Option String
deriving DecidableEq, Repr

/-- SurchargeDetails attached to the aggregate; `final_amount` is the
effective amount when surcharge is present (§3 invariant). -/
structure SurchargeDetails where
  surcharge_amount : MinorUnit
  tax_amount : Option MinorUnit
  final_amount : MinorUnit
deriving DecidableEq, Repr

/-- domain::PaymentMethodData (the variants this core distinguishes: the
mandate-payment placeholder versus real payment-method data). -/
inductive PaymentMethodData
  | mandatePayment
  | cardData (card : String)
  | walletData (wallet : String)
deriving DecidableEq, Repr

/-- hyperswitch_domain_models::mandates::AcceptanceType. -/
inductive AcceptanceType
  | online
  | offline
deriving DecidableEq, Repr

/-- Online-mandate acceptance details. -/
structure OnlineMandate where
  ip_address : Option String
  user_agent : String
deriving DecidableEq, Repr

/-- Customer acceptance of a mandate. -/
structure CustomerAcceptance where
  acceptance_type : AcceptanceType
  accepted_at : Option Int
  online : Option OnlineMandate
deriving DecidableEq, Repr

/-- Mandate amount window (amount/currency/date window, §4.4). -/
structure MandateAmountData where
  amount : Int
  currency : Currency
  start_date : Option Int
  end_date : Option Int
  metadata : Option String
deriving DecidableEq, Repr

/-- hyperswitch_domain_models::mandates::MandateDataType. -/
inductive MandateDataType
  | singleUse (data : MandateAmountData)
  | multiUse (data : Option MandateAmountData)
deriving DecidableEq, Repr

/-- Setup-mandate data on the aggregate (and, with the same shape, the
api::MandateData of the response). -/
structure MandateData where
  customer_acceptance : Option CustomerAcceptance
  mandate_type : Option MandateDataType
  update_mandate_id : Option String
deriving DecidableEq, Repr

/-- The external-authentication record (fields read by the Next-Action
Resolver; `separate_authn_required` models the
`is_separate_authn_required()` accessor, whose impl is outside src/). -/
structure AuthenticationRecord where
  cavv : Option String
  three_ds_method_url : Option String
  three_ds_method_data : Option String
  separate_authn_required : Bool
  message_version : Option String
  directory_server_id : Option String
deriving DecidableEq, Repr

/-- Poll configuration (delay/frequency). -/
structure PollConfig where
  delay_in_secs : Int
  frequency : Int
deriving DecidableEq, Repr

/-- Default poll configuration, used by `unwrap_or_default()`. -/
def PollConfig.default : PollConfig := { delay_in_secs := 0, frequency := 0 }

/-- Country-bearing inner address. -/
structure AddressInner where
  country : Option String
deriving DecidableEq, Repr

/-- A billing/shipping address (opaque except the country). -/
structure BillingAddress where
  address : Option AddressInner
deriving DecidableEq, Repr

/-- The unified address set of the aggregate, exposing the accessors the
source calls on `payment_data.address`. -/
structure PaymentAddress where
  shipping : Option BillingAddress
  payment_billing : Option BillingAddress
  request_payment_method_billing : Option BillingAddress
  payment_method_billing : Option BillingAddress
deriving DecidableEq, Repr

/-- Multiple-capture side-collection (projections the source reads;
`captures_count` models `get_captures_count()?`, `latest_capture_id` the id of
`get_latest_capture()`). -/
structure MultipleCaptureData where
  expand_captures : Option Bool
  all_captures : List String
  pending_connector_capture_ids : List String
  latest_capture_id : String
  captures_count : Nat
deriving DecidableEq, Repr

/-- Redirect response carried on the aggregate for complete-authorize. -/
structure RedirectResponse where
  param : Option String
  json_payload : Option String
deriving DecidableEq, Repr

/-- Payment-method-info side-record (only its status is read here). -/
structure PaymentMethodInfo where
  status : String
deriving DecidableEq, Repr

/-- PaymentData: the Canonical Payment Aggregate (§3) — one Intent, one
active Attempt, and the optional side-collections this core reads. -/
structure PaymentData where
  payment_intent : PaymentIntent
  payment_attempt : PaymentAttempt
  amount : MinorUnit
  currency : Currency
  email : Option String
  mandate_id : Option MandateIds
  setup_mandate : Option MandateData
  customer_acceptance : Option CustomerAcceptance
  surcharge_details : Option SurchargeDetails
  payment_method_data : Option PaymentMethodData
  refunds : List String
  disputes : List String
  authorizations : List String
  attempts : Option (List String)
  multiple_capture_data : Option MultipleCaptureData
  authentication : Option AuthenticationRecord
  poll_config : Option PollConfig
  sessions_token : List SessionToken
  payment_method_info : Option PaymentMethodInfo
  frm_message : Option String
  address : PaymentAddress
  redirect_response : Option RedirectResponse
  creds_identifier : Option String
  token : Option String
  ephemeral_key : Option String
  payment_link_data : Option String
deriving DecidableEq, Repr

/-- Modelled from the spec: URL derivation (§4.1) — webhook, return,
complete-authorize, start-pay and three-DS URLs are deterministically derived
from (base URL, connector name, attempt id, optional credential identifier);
the helper impls live outside src/.  We embed them as injective string
concatenations. -/
def create_redirect_url (base : String) (pa : PaymentAttempt)
    (connector_name : String) (creds_identifier : Option String) : String :=
  base ++ "/payments/" ++ pa.payment_id ++ "/" ++ pa.merchant_id ++
    "/redirect/response/" ++ connector_name ++ (creds_identifier.getD "")

/-- Modelled from the spec: webhook URL derivation (§4.1), impl outside src/. -/
def create_webhook_url (base : String) (merchant_id : String)
    (connector_name : String) : String :=
  base ++ "/webhooks/" ++ merchant_id ++ "/" ++ connector_name

/-- Modelled from the spec: complete-authorize URL derivation (§4.1), impl
outside src/. -/
def create_complete_authorize_url (base : String) (pa : PaymentAttempt)
    (connector_name : String) : String :=
  base ++ "/payments/" ++ pa.payment_id ++ "/" ++ pa.merchant_id ++
    "/redirect/complete/" ++ connector_name

/-- Modelled from the spec: start-pay URL derivation used by the
redirect-to-url candidate (§4.3 item 7), impl outside src/. -/
def create_startpay_url (base : String) (pa : PaymentAttempt)
    (pi : PaymentIntent) : String :=
  base ++ "/payments/redirect/" ++ pi.payment_id ++ "/" ++ pi.merchant_id ++
    "/" ++ pa.attempt_id

/-- Modelled from the spec: three-DS authentication URL derivation (§4.3
item 8), impl outside src/. -/
def create_authentication_url (base : String) (pa : PaymentAttempt) : String :=
  base ++ "/payments/" ++ pa.payment_id ++ "/3ds/authentication"

/-- Modelled from the spec: three-DS authorize URL derivation (§4.3 item 8),
impl outside src/. -/
def create_authorize_url (base : String) (pa : PaymentAttempt)
    (connector_name : String) : String :=
  base ++ "/payments/" ++ pa.payment_id ++ "/" ++ pa.merchant_id ++
    "/authorize/" ++ connector_name

/-- Modelled from the spec: poll id derived from the payment id (§4.3
item 8), impl outside src/. -/
def get_external_authentication_request_poll_id (payment_id : String) : String :=
  "external_authentication_" ++ payment_id

/-- Modelled from the spec: connector label derived from business
country/label/sub-label and connector name (impl outside src/); only its
determinism matters to this development. -/
def get_connector_label (business_country : Option String)
    (business_label : Option String) (business_sub_label : Option String)
    (connector_name : String) : Option String :=
  business_country.bind fun country =>
    business_label.map fun label =>
      connector_name ++ "_" ++ country ++ "_" ++ label ++
        (business_sub_label.getD "")

/-- configs::settings::ConnectorRequestReferenceIdConfig. -/
structure ConnectorRequestReferenceIdConfig where
  merchant_ids_send_payment_id_as_connector_request_id : List String
deriving DecidableEq, Repr

/-- Modelled from the spec: manual-retry decision from intent/attempt status,
config and merchant id (impl outside src/); opaque to every claim here, kept
as a fixed function of its arguments. -/
def is_manual_retry_allowed (intent_status : IntentStatus)
    (attempt_status : AttemptStatus)
    (_config : ConnectorRequestReferenceIdConfig) (_merchant_id : String) :
    Option Bool :=
  if intent_status = .failed ∧ attempt_status = .failure then some true
  else none

/-- Modelled from the spec: minor-unit to currency-base-unit string
conversion (impl outside src/); deterministic in its inputs. -/
def to_currency_base_unit (_currency : Currency) (amount : Int) :
    Except ApiError String :=
  .ok (toString amount)

/-- qr_code_next_steps_check: parse connector metadata into
`QrCodeInformation`; parse failure (or absent metadata) degrades to `none`
(`transpose().ok().flatten()` in the source). -/
def qr_code_next_steps_check (payment_attempt : PaymentAttempt) :
    Except ApiError (Option QrCodeInformation) :=
  .ok (payment_attempt.connector_metadata.bind fun metadata => metadata.qr_code)

/-- paypal_sdk_next_steps_check: parse connector metadata into
`SdkNextActionData`; failure degrades to `none`. -/
def paypal_sdk_next_steps_check (payment_attempt : PaymentAttempt) :
    Except ApiError (Option SdkNextActionData) :=
  .ok (payment_attempt.connector_metadata.bind fun metadata =>
    metadata.sdk_next_action)

/-- fetch_qr_code_url_next_steps_check: parse connector metadata into
`FetchQrCodeInformation`; failure degrades to `none`. -/
def fetch_qr_code_url_next_steps_check (payment_attempt : PaymentAttempt) :
    Except ApiError (Option FetchQrCodeInformation) :=
  .ok (payment_attempt.connector_metadata.bind fun metadata =>
    metadata.fetch_qr)

/-- wait_screen_next_steps_check: parse connector metadata into
`WaitScreenInstructions`; failure degrades to `none`. -/
def wait_screen_next_steps_check (payment_attempt : PaymentAttempt) :
    Except ApiError (Option WaitScreenInstructions) :=
  .ok (payment_attempt.connector_metadata.bind fun metadata =>
    metadata.wait_screen)

/-- bank_transfer_next_steps_check: the bank-transfer candidate exists only
when the payment method is bank-transfer AND the method-type is not Pix; with
metadata present, a failed `NextStepsRequirements` parse propagates as
`InternalServerError` (the `transpose()?` in the source). -/
def bank_transfer_next_steps_check (payment_attempt : PaymentAttempt) :
    Except ApiError (Option BankTransferNextStepsData) :=
  if payment_attempt.payment_method = some PaymentMethod.bankTransfer then
    if payment_attempt.payment_method_type ≠ some PaymentMethodType.pix then
      match payment_attempt.connector_metadata with
      | none => .ok none
      | some metadata =>
        match metadata.next_steps_bank with
        | some data => .ok (some data)
        | none => .error ApiError.internalServerError
    else
      .ok none
  else
    .ok none

/-- voucher_next_steps_check: the voucher candidate exists only when the
payment method is voucher; with metadata present, a failed
`NextStepsRequirements` parse propagates as `InternalServerError`. -/
def voucher_next_steps_check (payment_attempt : PaymentAttempt) :
    Except ApiError (Option VoucherNextStepData) :=
  if payment_attempt.payment_method = some PaymentMethod.voucher then
    match payment_attempt.connector_metadata with
    | none => .ok none
    | some metadata =>
      match metadata.next_steps_voucher with
      | some data => .ok (some data)
      | none => .error ApiError.internalServerError
  else
    .ok none

/-- third_party_sdk_session_next_action: true when the operation debug-name is
"PaymentConfirm" and either (connector in {trustpay, payme} and payment
method is wallet) or (connector is plaid, method open-banking, method-type
open-banking-PIS); the Option chains mirror the source's map/and_then. -/
def third_party_sdk_session_next_action (payment_attempt : PaymentAttempt)
    (operation : Operation) : Bool :=
  if opDebugName operation = "PaymentConfirm" then
    let condition1 :=
      ((payment_attempt.connector.map fun connector =>
          connector == "trustpay" || connector == "payme").bind
        fun is_connector_supports_third_party_sdk =>
          if is_connector_supports_third_party_sdk then
            payment_attempt.payment_method.map fun pm =>
              pm == PaymentMethod.wallet
          else
            some false).getD false
    let condition2 :=
      ((payment_attempt.connector.map fun connector =>
          connector == "plaid").bind
        fun is_connector_supports_third_party_sdk =>
          if is_connector_supports_third_party_sdk then
            ((payment_attempt.payment_method.map fun pm =>
                pm == PaymentMethod.openBanking).bind
              fun first_match =>
                (payment_attempt.payment_method_type.map fun pmt =>
                    pmt == PaymentMethodType.openBankingPIS).map
                  fun second_match => first_match && second_match)
          else
            some false).getD false
    condition1 || condition2
  else
    false

/-- NextActionData::foreign_from(QrCodeInformation): each QR flavor maps to
the `qrCodeInformation` next action, populating the fields it carries. -/
def next_action_data_foreign_from_qr (qr_info : QrCodeInformation) :
    NextActionData :=
  match qr_info with
  | .qrCodeUrl image_data_url qr_code_url display_to_timestamp =>
      NextActionData.qrCodeInformation (some image_data_url)
        (some qr_code_url) display_to_timestamp
  | .qrDataUrl image_data_url display_to_timestamp =>
      NextActionData.qrCodeInformation (some image_data_url) none
        display_to_timestamp
  | .qrCodeImageUrl qr_code_url display_to_timestamp =>
      NextActionData.qrCodeInformation none (some qr_code_url)
        display_to_timestamp

/-- types::ResponseId. -/
inductive ResponseId
  | connectorTransactionId (id : String)
  | encodedData (data : String)
  | noResponseId
deriving DecidableEq, Repr

/-- enums::CaptureStatus. -/
inductive CaptureStatus
  | started
  | charged
  | pending
  | failed
deriving DecidableEq, Repr

/-- Modelled from the spec: `CaptureStatus::foreign_try_from` on the
connector-reported attempt status (impl outside src/; §4.5 "status is
foreign-mapped from connector status"). -/
def capture_status_foreign_try_from : AttemptStatus → Except ApiError CaptureStatus
  | .started => .ok CaptureStatus.started
  | .authorized => .ok CaptureStatus.pending
  | .charged => .ok CaptureStatus.charged
  | .pending => .ok CaptureStatus.pending
  | .failure => .ok CaptureStatus.failed

/-- types::CaptureSyncResponse: the outcome of one capture-sync call. -/
inductive CaptureSyncResponse
  | success (resource_id : ResponseId) (status : AttemptStatus)
      (connector_response_reference_id : Option String)
  | error (code : String) (message : String) (reason : Option String)
      (status_code : Nat)
deriving DecidableEq, Repr

/-- storage::CaptureUpdate. -/
inductive CaptureUpdate
  | responseUpdate (status : CaptureStatus) (connector_capture_id : Option String)
      (connector_response_reference_id : Option String)
  | errorUpdate (status : CaptureStatus) (error_code : Option String)
      (error_message : Option String) (error_reason : Option String)
deriving DecidableEq, Repr

/-- CaptureUpdate::foreign_try_from(CaptureSyncResponse): the Capture
Reconciler (§4.5).  On success the capture id is extracted only from a
connector-transaction-id resource id; on error the status is Pending for
reported status codes in 500..=511 and Failed otherwise, with error fields
passed through. -/
def capture_update_foreign_try_from (capture_sync_response : CaptureSyncResponse) :
    Except ApiError CaptureUpdate :=
  match capture_sync_response with
  | .success resource_id status connector_response_reference_id =>
      let connector_capture_id :=
        match resource_id with
        | .connectorTransactionId id => some id
        | .encodedData _ => none
        | .noResponseId => none
      match capture_status_foreign_try_from status with
      | .ok mapped_status =>
          .ok (CaptureUpdate.responseUpdate mapped_status connector_capture_id
            connector_response_reference_id)
      | .error e => .error e
  | .error code message reason status_code =>
      .ok (CaptureUpdate.errorUpdate
        (if 500 ≤ status_code ∧ status_code ≤ 511 then CaptureStatus.pending
          else CaptureStatus.failed)
        (some code) (some message) reason)

/-- api_models::payments::RequestSurchargeDetails (the response-side surcharge
projection built from the attempt). -/
structure RequestSurchargeDetails where
  surcharge_amount : MinorUnit
  tax_amount : Option MinorUnit
deriving DecidableEq, Repr

/-- api_models::payments::PaymentMethodDataResponseWithBilling. -/
structure PaymentMethodDataResponseWithBilling where
  payment_method_data : Option AdditionalPaymentData
  billing : Option BillingAddress
deriving DecidableEq, Repr

/-- api_models::payments::PaymentChargeResponse. -/
structure PaymentChargeResponse where
  charge_id : Option String
  charge_type : String
  application_fees : Int
  transfer_account_id : String
deriving DecidableEq, Repr

/-- Modelled from the spec: ForeignInto projection of the customer-table
record into `CustomerDetailsResponse` (impl outside src/): id from the table
record, remaining fields copied (§4.4 "customer-table projection"). -/
def customer_foreign_into (customer : Customer) : CustomerDetailsResponse :=
  { id := some customer.customer_id
    name := customer.name
    email := customer.email
    phone := customer.phone
    phone_country_code := customer.phone_country_code }

/-- Customer-detail reconciliation (§4.4): decode the Intent's encrypted
customer-details blob; on success its fields take precedence with id filled
from the customer table and per-field fallback to the customer record; on
decode failure (or no blob) fall back to the customer-table projection.
Extracted verbatim from payments_to_payments_response lines 533-573. -/
def customer_details_response_of (intent_customer_details : Option (Option CustomerData))
    (customer : Option Customer) : Option CustomerDetailsResponse :=
  let customer_table_response := customer.map customer_foreign_into
  match intent_customer_details with
  | some customer_details_encrypted =>
      match customer_details_encrypted with
      | some customer_details_encrypted_data =>
          some
            { id := customer_table_response.bind fun customer_data => customer_data.id
              name := customer_details_encrypted_data.name.or
                (customer.bind fun c => c.name)
              email := customer_details_encrypted_data.email.or
                (customer.bind fun c => c.email)
              phone := customer_details_encrypted_data.phone.or
                (customer.bind fun c => c.phone)
              phone_country_code := customer_details_encrypted_data.phone_country_code.or
                (customer.bind fun c => c.phone_country_code) }
      | none => customer_table_response
  | none => customer_table_response

/-- Mandate-data projection into the api shape (§4.4): differentiates
online/offline acceptance and single-use/multi-use type, carrying
amount/currency/date window through unchanged (source lines 784-826). -/
def mandate_data_response_of (d : MandateData) : MandateData :=
  { customer_acceptance := d.customer_acceptance.map fun acceptance =>
      { acceptance_type :=
          match acceptance.acceptance_type with
          | .online => AcceptanceType.online
          | .offline => AcceptanceType.offline
        accepted_at := acceptance.accepted_at
        online := acceptance.online.map fun o =>
          { ip_address := o.ip_address, user_agent := o.user_agent } }
    mandate_type := d.mandate_type.map fun mandate_type =>
      match mandate_type with
      | .multiUse (some i) =>
          MandateDataType.multiUse (some
            { amount := i.amount, currency := i.currency,
              start_date := i.start_date, end_date := i.end_date,
              metadata := i.metadata })
      | .singleUse i =>
          MandateDataType.singleUse
            { amount := i.amount, currency := i.currency,
              start_date := i.start_date, end_date := i.end_date,
              metadata := i.metadata }
      | .multiUse none => MandateDataType.multiUse none
    update_mandate_id := d.update_mandate_id }

/-- api::PaymentsResponse: the full payment response, restricted to the
fields the setter chain of payments_to_payments_response assigns. -/
structure PaymentsResponse where
  net_amount : MinorUnit
  payment_id : Option String
  merchant_id : Option String
  status : IntentStatus
  amount : MinorUnit
  amount_capturable : Option MinorUnit
  amount_received : Option MinorUnit
  surcharge_details : Option RequestSurchargeDetails
  connector : Option String
  client_secret : Option String
  created : Option Int
  currency : String
  customer_id : Option String
  email : Option String
  name : Option String
  phone : Option String
  mandate_id : Option String
  mandate_data : Option MandateData
  description : Option String
  refunds : Option (List String)
  disputes : Option (List String)
  attempts : Option (List String)
  captures : Option (List String)
  payment_method : Option PaymentMethod
  payment_method_data : Option PaymentMethodDataResponseWithBilling
  payment_token : Option String
  error_message : Option String
  error_code : Option String
  shipping : Option BillingAddress
  billing : Option BillingAddress
  next_action : Option NextActionData
  return_url : Option String
  cancellation_reason : Option String
  authentication_type : Option String
  statement_descriptor_name : Option String
  statement_descriptor_suffix : Option String
  setup_future_usage : Option String
  capture_method : Option String
  payment_experience : Option String
  payment_method_type : Option PaymentMethodType
  metadata : Option String
  order_details : Option (List (Option OrderDetailsWithAmount))
  connector_label : Option String
  business_country : Option String
  business_label : Option String
  business_sub_label : Option String
  allowed_payment_method_types : Option String
  ephemeral_key : Option String
  frm_message : Option String
  merchant_decision : Option String
  manual_retry_allowed : Option Bool
  connector_transaction_id : Option String
  feature_metadata : Option String
  connector_metadata : Option (Option IntentConnectorMetadata)
  reference_id : Option String
  payment_link : Option String
  profile_id : Option String
  attempt_count : Int
  merchant_connector_id : Option String
  unified_code : Option String
  unified_message : Option String
  incremental_authorization_allowed : Option Bool
  external_authentication_details : Option AuthenticationRecord
  fingerprint : Option String
  authorization_count : Option Int
  incremental_authorizations : Option (List String)
  expires_on : Option Int
  external_3ds_authentication_attempted : Option Bool
  payment_method_id : Option String
  payment_method_status : Option String
  customer : Option CustomerDetailsResponse
  browser_info : Option (Option BrowserInformation)
  updated : Option Int
  charges : Option PaymentChargeResponse
  frm_metadata : Option String
  merchant_order_reference_id : Option String
deriving DecidableEq, Repr

/-- services::ApplicationResponse, restricted to the two shapes this core
produces: a redirection form or a JSON body with headers. -/
inductive ApplicationResponse
  | form (redirect_form : RedirectForm)
      (payment_method_data : Option PaymentMethodData) (amount : String)
      (currency : String)
  | jsonWithHeaders (response : PaymentsResponse)
      (headers : List (String × String))
deriving DecidableEq, Repr

/-- Display rendering of a currency. -/
def currencyToString : Currency → String
  | .USD => "USD"
  | .EUR => "EUR"
  | .INR => "INR"

/-- OptionExt::get_required_value: a required field that is absent surfaces
as `MissingRequiredValue` (§7). -/
def get_required_value {α : Type} (field : String) (value : Option α) :
    Except ApiError α :=
  match value with
  | some v => .ok v
  | none => .error (ApiError.missingRequiredValue field)

/-- The currency-base-unit conversion with its `InvalidDataValue { field:
"amount" }` error context (source lines 411-415). -/
def to_currency_base_unit_field (currency : Currency) (amount : Int) :
    Except ApiError String :=
  match to_currency_base_unit currency amount with
  | .ok a => .ok a
  | .error _ => .error (ApiError.invalidDataValue "amount")

/-- The attempt's `payment_method_data` blob parse of response synthesis:
parse failure surfaces as `InvalidDataValue { field: "payment_method_data" }`
(source lines 483-491). -/
def parse_additional_payment_method_data
    (blob : Option (Option AdditionalPaymentData)) :
    Except ApiError (Option AdditionalPaymentData) :=
  match blob with
  | none => .ok none
  | some none => .error (ApiError.invalidDataValue "payment_method_data")
  | some (some data) => .ok (some data)

/-- The redirect-form decode of the start-pay branch: malformed
redirection-data JSON is `InternalServerError` (source lines 593-594). -/
def parse_redirect_form (redirection_data : AuthenticationDataBlob) :
    Except ApiError RedirectForm :=
  match redirection_data.redirect_form with
  | some form => .ok form
  | none => .error ApiError.internalServerError

/-- The charges parse of response synthesis: a present charges blob failing
the `PaymentChargeRequest` parse is `InternalServerError` (source lines
730-750). -/
def parse_charges_response (charges : Option ChargesBlob)
    (charge_id : Option String) : Except ApiError (Option PaymentChargeResponse) :=
  match charges with
  | none => .ok none
  | some blob =>
      match blob.as_payment_charge_request with
      | none => .error ApiError.internalServerError
      | some payment_charges =>
          .ok (some
            { charge_id := charge_id
              charge_type := payment_charges.charge_type
              application_fees := payment_charges.fees
              transfer_account_id := payment_charges.transfer_account_id })

/-- The three-DS-invoke candidate (source lines 667-706): present only when
the intent status is requires-customer-action, an authentication record
exists, its cavv is absent and separate authentication is required; the
required connector name failing is a `MissingRequiredValue` error that
propagates even when an earlier candidate won (Rust `Option::or` evaluates
its argument eagerly). -/
def three_ds_invoke_arm (payment_data : PaymentData) (base_url : String) :
    Except ApiError (Option NextActionData) := do
  let payment_attempt := payment_data.payment_attempt
  let payment_intent := payment_data.payment_intent
  match payment_data.authentication with
  | some authentication =>
      if payment_intent.status == IntentStatus.requiresCustomerAction
          && authentication.cavv.isNone
          && authentication.separate_authn_required then do
        let poll_config := payment_data.poll_config.getD PollConfig.default
        let request_poll_id :=
          get_external_authentication_request_poll_id payment_intent.payment_id
        let payment_connector_name ←
          get_required_value "connector" payment_attempt.connector
        Except.ok (some (NextActionData.threeDsInvoke
          { three_ds_authentication_url :=
              create_authentication_url base_url payment_attempt
            three_ds_authorize_url :=
              create_authorize_url base_url payment_attempt payment_connector_name
            three_ds_method_details :=
              match authentication.three_ds_method_url,
                  authentication.three_ds_method_data with
              | some three_ds_method_url, some three_ds_method_data =>
                  { three_ds_method_data_submission := true
                    three_ds_method_data := some three_ds_method_data
                    three_ds_method_url := some three_ds_method_url }
              | _, _ =>
                  { three_ds_method_data_submission := false
                    three_ds_method_data := none
                    three_ds_method_url := none }
            poll_config :=
              { poll_id := request_poll_id
                delay_in_secs := poll_config.delay_in_secs
                frequency := poll_config.frequency }
            message_version := authentication.message_version
            directory_server_id := authentication.directory_server_id }))
      else
        Except.ok none
  | none => Except.ok none

/-- The gated precedence chain of the Next-Action Resolver (source lines
619-707): evaluated only when the intent status is requires-customer-action
or any candidate source is present; candidates combine with `Option::or` in
the fixed order bank-transfer, voucher, QR-code, fetch-QR-code-url,
PayPal-SDK, wait-screen, redirect, three-DS-invoke. -/
def resolve_next_action_chain (payment_data : PaymentData) (base_url : String)
    (bank_transfer_next_steps : Option BankTransferNextStepsData)
    (next_action_voucher : Option VoucherNextStepData)
    (next_action_containing_qr_code_url : Option QrCodeInformation)
    (next_action_containing_fetch_qr_code_url : Option FetchQrCodeInformation)
    (papal_sdk_next_action : Option SdkNextActionData)
    (next_action_containing_wait_screen : Option WaitScreenInstructions) :
    Except ApiError (Option NextActionData) :=
  let payment_attempt := payment_data.payment_attempt
  let payment_intent := payment_data.payment_intent
  if payment_intent.status == IntentStatus.requiresCustomerAction
      || bank_transfer_next_steps.isSome
      || next_action_voucher.isSome
      || next_action_containing_qr_code_url.isSome
      || next_action_containing_wait_screen.isSome
      || papal_sdk_next_action.isSome
      || next_action_containing_fetch_qr_code_url.isSome
      || payment_data.authentication.isSome then do
    let three_ds_arm ← three_ds_invoke_arm payment_data base_url
    Except.ok
      ((((((((bank_transfer_next_steps.map fun bank_transfer =>
          NextActionData.displayBankTransferInformation bank_transfer).or
        (next_action_voucher.map fun voucher_data =>
          NextActionData.displayVoucherInformation voucher_data)).or
        (next_action_containing_qr_code_url.map fun qr_code_data =>
          next_action_data_foreign_from_qr qr_code_data)).or
        (next_action_containing_fetch_qr_code_url.map fun fetch_qr_code_data =>
          NextActionData.fetchQrCodeInformation
            fetch_qr_code_data.qr_code_fetch_url)).or
        (papal_sdk_next_action.map fun paypal_next_action_data =>
          NextActionData.invokeSdkClient paypal_next_action_data)).or
        (next_action_containing_wait_screen.map fun wait_screen_data =>
          NextActionData.waitScreenInformation
            wait_screen_data.display_from_timestamp
            wait_screen_data.display_to_timestamp)).or
        (payment_attempt.authentication_data.map fun _ =>
          NextActionData.redirectToUrl
            (create_startpay_url base_url payment_attempt payment_intent))).or
        three_ds_arm)
  else
    Except.ok none

/-- payments_to_payments_response: the full-payment Response Synthesizer
(source lines 388-923).  The `set_X(value, condition)` masking setters of the
response builder (derive impl outside src/) are embedded as assigning the
value when the condition holds and the default `none` otherwise.  The metric
emission at the end of the source function is a side effect that never enters
the returned value and is omitted. -/
def payments_to_payments_response
    (payment_data : PaymentData)
    (captures : Option (List String))
    (customer : Option Customer)
    (auth_flow : AuthFlow)
    (base_url : String)
    (operation : Operation)
    (connector_request_reference_id_config : ConnectorRequestReferenceIdConfig)
    (connector_http_status_code : Option Nat)
    (external_latency : Option Nat)
    (_is_latency_header_enabled : Option Bool) :
    Except ApiError ApplicationResponse := do
  let payment_attempt := payment_data.payment_attempt
  let payment_intent := payment_data.payment_intent
  let payment_link_data := payment_data.payment_link_data
  let currency ← get_required_value "currency" payment_attempt.currency
  let amount ← to_currency_base_unit_field currency payment_attempt.amount
  let mandate_id := payment_attempt.mandate_id
  let refunds_response :=
    if payment_data.refunds.isEmpty then none else some payment_data.refunds
  let disputes_response :=
    if payment_data.disputes.isEmpty then none else some payment_data.disputes
  let incremental_authorizations_response :=
    if payment_data.authorizations.isEmpty then none
    else some payment_data.authorizations
  let external_authentication_details := payment_data.authentication
  let attempts_response := payment_data.attempts
  let captures_response := captures
  let merchant_id := payment_attempt.merchant_id
  let additional_payment_method_data ←
    parse_additional_payment_method_data payment_attempt.payment_method_data_parsed
  let surcharge_details := payment_attempt.surcharge_amount.map
    fun surcharge_amount =>
      ({ surcharge_amount := surcharge_amount
         tax_amount := payment_attempt.tax_amount } : RequestSurchargeDetails)
  let merchant_decision := payment_intent.merchant_decision
  let frm_message := payment_data.frm_message
  let payment_method_data := additional_payment_method_data
  let payment_method_data_response :=
    if payment_method_data.isSome
        || payment_data.address.request_payment_method_billing.isSome then
      some ({ payment_method_data := payment_method_data
              billing := payment_data.address.request_payment_method_billing } :
        PaymentMethodDataResponseWithBilling)
    else none
  let headers0 := (connector_http_status_code.map fun status_code =>
      [("connector_http_status_code", toString status_code)]).getD []
  let headers1 :=
    match payment_intent.payment_confirm_source with
    | some payment_confirm_source =>
        headers0 ++ [("x-payment-confirm-source", payment_confirm_source)]
    | none => headers0
  let customer_details_response :=
    customer_details_response_of payment_intent.customer_details customer
  let headers := headers1 ++
    ((external_latency.map fun latency =>
        [("x-hs-latency", toString latency)]).getD [])
  if is_start_pay operation && payment_attempt.authentication_data.isSome then
    let redirection_data ←
      get_required_value "redirection_data" payment_attempt.authentication_data
    let form ← parse_redirect_form redirection_data
    Except.ok (ApplicationResponse.form form payment_data.payment_method_data
      amount (currencyToString currency))
  else
    let bank_transfer_next_steps ← bank_transfer_next_steps_check payment_attempt
    let next_action_voucher ← voucher_next_steps_check payment_attempt
    let next_action_containing_qr_code_url ← qr_code_next_steps_check payment_attempt
    let papal_sdk_next_action ← paypal_sdk_next_steps_check payment_attempt
    let next_action_containing_fetch_qr_code_url ←
      fetch_qr_code_url_next_steps_check payment_attempt
    let next_action_containing_wait_screen ←
      wait_screen_next_steps_check payment_attempt
    let next_action_response ← resolve_next_action_chain payment_data base_url
      bank_transfer_next_steps next_action_voucher
      next_action_containing_qr_code_url next_action_containing_fetch_qr_code_url
      papal_sdk_next_action next_action_containing_wait_screen
    let next_action_response :=
      if third_party_sdk_session_next_action payment_attempt operation then
        some (NextActionData.thirdPartySdkSessionToken
          payment_data.sessions_token.head?)
      else
        next_action_response
    let routed_through := payment_attempt.connector
    let connector_label := routed_through.bind fun connector_name =>
      get_connector_label payment_intent.business_country
        payment_intent.business_label payment_attempt.business_sub_label
        connector_name
    let charges_response ←
      parse_charges_response payment_intent.charges payment_attempt.charge_id
    Except.ok (ApplicationResponse.jsonWithHeaders
      { net_amount := payment_attempt.net_amount
        payment_id := some payment_attempt.payment_id
        merchant_id := some payment_attempt.merchant_id
        status := payment_intent.status
        amount := payment_attempt.amount
        amount_capturable := some payment_attempt.amount_capturable
        amount_received := payment_intent.amount_captured
        surcharge_details := surcharge_details
        connector := routed_through
        client_secret := payment_intent.client_secret
        created := some payment_intent.created_at
        currency := currencyToString currency
        customer_id := customer.map fun cus => cus.customer_id
        email := customer.bind fun cus => cus.email
        name := customer.bind fun cus => cus.name
        phone := customer.bind fun cus => cus.phone
        mandate_id := mandate_id
        mandate_data :=
          if auth_flow == AuthFlow.merchant then
            payment_data.setup_mandate.map mandate_data_response_of
          else none
        description := payment_intent.description
        refunds := refunds_response
        disputes := disputes_response
        attempts := attempts_response
        captures := captures_response
        payment_method :=
          if auth_flow == AuthFlow.merchant then payment_attempt.payment_method
          else none
        payment_method_data :=
          if auth_flow == AuthFlow.merchant then payment_method_data_response
          else none
        payment_token := payment_attempt.payment_token
        error_message := payment_attempt.error_reason.or
          payment_attempt.error_message
        error_code := payment_attempt.error_code
        shipping := payment_data.address.shipping
        billing := payment_data.address.payment_billing
        next_action := next_action_response
        return_url := payment_intent.return_url
        cancellation_reason := payment_attempt.cancellation_reason
        authentication_type := payment_attempt.authentication_type
        statement_descriptor_name := payment_intent.statement_descriptor_name
        statement_descriptor_suffix := payment_intent.statement_descriptor_suffix
        setup_future_usage := payment_intent.setup_future_usage
        capture_method := payment_attempt.capture_method
        payment_experience := payment_attempt.payment_experience
        payment_method_type := payment_attempt.payment_method_type
        metadata := payment_intent.metadata
        order_details := payment_intent.order_details
        connector_label := connector_label
        business_country := payment_intent.business_country
        business_label := payment_intent.business_label
        business_sub_label := payment_attempt.business_sub_label
        allowed_payment_method_types := payment_intent.allowed_payment_method_types
        ephemeral_key := payment_data.ephemeral_key
        frm_message := frm_message
        merchant_decision := merchant_decision
        manual_retry_allowed :=
          is_manual_retry_allowed payment_intent.status payment_attempt.status
            connector_request_reference_id_config merchant_id
        connector_transaction_id := payment_attempt.connector_transaction_id
        feature_metadata := payment_intent.feature_metadata
        connector_metadata := payment_intent.connector_metadata
        reference_id := payment_attempt.connector_response_reference_id
        payment_link := payment_link_data
        profile_id := payment_intent.profile_id
        attempt_count := payment_intent.attempt_count
        merchant_connector_id := payment_attempt.merchant_connector_id
        unified_code := payment_attempt.unified_code
        unified_message := payment_attempt.unified_message
        incremental_authorization_allowed :=
          payment_intent.incremental_authorization_allowed
        external_authentication_details := external_authentication_details
        fingerprint := payment_intent.fingerprint_id
        authorization_count := payment_intent.authorization_count
        incremental_authorizations := incremental_authorizations_response
        expires_on := payment_intent.session_expiry
        external_3ds_authentication_attempted :=
          payment_attempt.external_three_ds_authentication_attempted
        payment_method_id := payment_attempt.payment_method_id
        payment_method_status := payment_data.payment_method_info.map
          fun info => info.status
        customer := customer_details_response
        browser_info := payment_attempt.browser_info_parsed
        updated := some payment_intent.modified_at
        charges := charges_response
        frm_metadata := payment_intent.frm_metadata
        merchant_order_reference_id := payment_intent.merchant_order_reference_id }
      headers)

/-- PaymentAdditionalData: the context each Request Builder receives. -/
structure PaymentAdditionalData where
  router_base_url : String
  connector_name : String
  payment_data : PaymentData
  customer_data : Option Customer
deriving DecidableEq, Repr

/-- The shared browser-info decode of the builders: decode failure surfaces
as `InvalidDataValue { field: "browser_info" }` (§4.1). -/
def parse_browser_info (browser_info : Option (Option BrowserInformation)) :
    Except ApiError (Option BrowserInformation) :=
  match browser_info with
  | none => .ok none
  | some none => .error (ApiError.invalidDataValue "browser_info")
  | some (some b) => .ok (some b)

/-- The shared order-details parse of the builders: any single element
failing to parse fails the whole batch (§4.1). -/
def collect_order_details : List (Option OrderDetailsWithAmount) →
    Except ApiError (List OrderDetailsWithAmount)
  | [] => .ok []
  | none :: _ => .error (ApiError.invalidDataValue "OrderDetailsWithAmount")
  | some data :: rest =>
      match collect_order_details rest with
      | .ok parsed => .ok (data :: parsed)
      | .error e => .error e

/-- The shared optional order-details parse wrapper (`.transpose()?`). -/
def parse_order_details (order_details : Option (List (Option OrderDetailsWithAmount))) :
    Except ApiError (Option (List OrderDetailsWithAmount)) :=
  match order_details with
  | none => .ok none
  | some items =>
      match collect_order_details items with
      | .ok parsed => .ok (some parsed)
      | .error e => .error e

/-- Modelled from the spec: `AuthenticationData::foreign_try_from` on the
external-authentication record (impl outside src/); carried through
opaquely. -/
def authentication_data_foreign_try_from (record : AuthenticationRecord) :
    Except ApiError AuthenticationRecord :=
  .ok record

/-- The `.map(foreign_try_from).transpose()?` of the authorize builder. -/
def authentication_data_transpose (authentication : Option AuthenticationRecord) :
    Except ApiError (Option AuthenticationRecord) :=
  match authentication with
  | some record =>
      match authentication_data_foreign_try_from record with
      | .ok converted => .ok (some converted)
      | .error e => .error e
  | none => .ok none

/-- The noon order-category parse of the intent's connector metadata
(authorize builder, source lines 1256-1266): a present blob failing the
`ConnectorMetadata` parse is `InternalServerError`. -/
def parse_order_category
    (connector_metadata : Option (Option IntentConnectorMetadata)) :
    Except ApiError (Option String) :=
  match connector_metadata with
  | none => .ok none
  | some none => .error ApiError.internalServerError
  | some (some cm) => .ok cm.noon_order_category

/-- The charges parse of the authorize builder (source lines 1334-1342): a
present charges blob failing the `PaymentCharges` parse is
`InternalServerError`. -/
def parse_payment_charges (charges : Option ChargesBlob) :
    Except ApiError (Option PaymentCharges) :=
  match charges with
  | some blob =>
      match blob.as_payment_charges with
      | none => .error ApiError.internalServerError
      | some parsed => .ok parsed
  | none => .ok none

/-- `.ok_or(ResourceIdNotFound)` on a resolved connector transaction id. -/
def ok_or_resource_id_not_found (resolved : Option String) :
    Except ApiError String :=
  match resolved with
  | some id => .ok id
  | none => .error ApiError.resourceIdNotFound

/-- Modelled from the spec: extraction of a connector transaction id from the
opaque connector metadata (§4.1; the metadata-level trait impl is outside
src/): absent metadata is a failure, present metadata yields its optional id
field. -/
def connector_transaction_id_from_metadata (metadata : Option ConnectorMetadata) :
    Except Unit (Option String) :=
  match metadata with
  | some m => .ok m.meta_txn_id
  | none => .error ()

/-- ConnectorTransactionId for Helcim (source lines 1478-1491): prefer the
attempt's field; when it is absent extract from connector metadata, mapping
extraction failure to `ResourceIdNotFound`. -/
def helcim_connector_transaction_id (payment_attempt : PaymentAttempt) :
    Except ApiError (Option String) :=
  if payment_attempt.connector_transaction_id.isNone then
    match connector_transaction_id_from_metadata payment_attempt.connector_metadata with
    | .ok v => .ok v
    | .error _ => .error ApiError.resourceIdNotFound
  else
    .ok payment_attempt.connector_transaction_id

/-- ConnectorTransactionId for Nexinets (source lines 1493-1501): always
extract from connector metadata, mapping failure to `ResourceIdNotFound`. -/
def nexinets_connector_transaction_id (payment_attempt : PaymentAttempt) :
    Except ApiError (Option String) :=
  match connector_transaction_id_from_metadata payment_attempt.connector_metadata with
  | .ok v => .ok v
  | .error _ => .error ApiError.resourceIdNotFound

/-- Modelled from the spec: the ConnectorTransactionId capability dispatch
(§4.1) — Helcim and Nexinets override (their impls are in src/ and embedded
above); every other connector reads the attempt's field. -/
def connector_transaction_id_resolve (connector_name : String)
    (payment_attempt : PaymentAttempt) : Except ApiError (Option String) :=
  if connector_name = "helcim" then
    helcim_connector_transaction_id payment_attempt
  else if connector_name = "nexinets" then
    nexinets_connector_transaction_id payment_attempt
  else
    .ok payment_attempt.connector_transaction_id

/-- types::PaymentsAuthorizeData (fields the authorize builder populates). -/
structure PaymentsAuthorizeData where
  payment_method_data : PaymentMethodData
  setup_future_usage : Option String
  mandate_id : Option MandateIds
  off_session : Option Bool
  setup_mandate_details : Option MandateData
  confirm : Bool
  statement_descriptor_suffix : Option String
  statement_descriptor : Option String
  capture_method : Option String
  amount : Int
  minor_amount : MinorUnit
  currency : Currency
  browser_info : Option BrowserInformation
  email : Option String
  customer_name : Option String
  payment_experience : Option String
  order_details : Option (List OrderDetailsWithAmount)
  order_category : Option String
  session_token : Option String
  enrolled_for_3ds : Bool
  related_transaction_id : Option String
  payment_method_type : Option PaymentMethodType
  router_return_url : Option String
  webhook_url : Option String
  complete_authorize_url : Option String
  customer_id : Option String
  surcharge_details : Option SurchargeDetails
  request_incremental_authorization : Bool
  metadata : Option String
  authentication_data : Option AuthenticationRecord
  customer_acceptance : Option CustomerAcceptance
  charges : Option PaymentCharges
  merchant_order_reference_id : Option String
deriving DecidableEq, Repr

/-- PaymentsAuthorizeData::try_from(PaymentAdditionalData): the authorize
Request Builder (source lines 1239-1396). -/
def payments_authorize_try_from (additional_data : PaymentAdditionalData) :
    Except ApiError PaymentsAuthorizeData := do
  let payment_data := additional_data.payment_data
  let router_base_url := additional_data.router_base_url
  let connector_name := additional_data.connector_name
  let attempt := payment_data.payment_attempt
  let browser_info ← parse_browser_info attempt.browser_info_parsed
  let order_category ←
    parse_order_category payment_data.payment_intent.connector_metadata
  let order_details ← parse_order_details payment_data.payment_intent.order_details
  let complete_authorize_url :=
    some (create_complete_authorize_url router_base_url attempt connector_name)
  let webhook_url :=
    some (create_webhook_url router_base_url attempt.merchant_id connector_name)
  let router_return_url :=
    some (create_redirect_url router_base_url attempt connector_name
      payment_data.creds_identifier)
  let payment_method_data := payment_data.payment_method_data.or
    (if payment_data.mandate_id.isSome then some PaymentMethodData.mandatePayment
      else none)
  let amount := (payment_data.surcharge_details.map
    fun surcharge_details => surcharge_details.final_amount).getD
    payment_data.amount
  let customer_name := additional_data.customer_data.bind
    fun customer_data => customer_data.name
  let customer_id := additional_data.customer_data.map
    fun data => data.customer_id
  let charges ← parse_payment_charges payment_data.payment_intent.charges
  let merchant_order_reference_id :=
    payment_data.payment_intent.merchant_order_reference_id
  let payment_method_data_required ←
    get_required_value "payment_method_data" payment_method_data
  let authentication_data ←
    authentication_data_transpose payment_data.authentication
  Except.ok
    { payment_method_data := payment_method_data_required
      setup_future_usage := payment_data.payment_intent.setup_future_usage
      mandate_id := payment_data.mandate_id
      off_session := payment_data.mandate_id.map fun _ => true
      setup_mandate_details := payment_data.setup_mandate
      confirm := payment_data.payment_attempt.confirm
      statement_descriptor_suffix :=
        payment_data.payment_intent.statement_descriptor_suffix
      statement_descriptor := payment_data.payment_intent.statement_descriptor_name
      capture_method := payment_data.payment_attempt.capture_method
      amount := amount
      minor_amount := amount
      currency := payment_data.currency
      browser_info := browser_info
      email := payment_data.email
      customer_name := customer_name
      payment_experience := payment_data.payment_attempt.payment_experience
      order_details := order_details
      order_category := order_category
      session_token := none
      enrolled_for_3ds := true
      related_transaction_id := none
      payment_method_type := payment_data.payment_attempt.payment_method_type
      router_return_url := router_return_url
      webhook_url := webhook_url
      complete_authorize_url := complete_authorize_url
      customer_id := customer_id
      surcharge_details := payment_data.surcharge_details
      request_incremental_authorization :=
        match payment_data.payment_intent.request_incremental_authorization with
        | some .reqTrue => true
        | some .reqDefault => true
        | _ => false
      metadata := additional_data.payment_data.payment_intent.metadata
      authentication_data := authentication_data
      customer_acceptance := payment_data.customer_acceptance
      charges := charges
      merchant_order_reference_id := merchant_order_reference_id }

/-- types::SyncRequestType. -/
inductive SyncRequestType
  | multipleCaptureSync (pending_connector_capture_ids : List String)
  | singlePaymentSync
deriving DecidableEq, Repr

/-- types::PaymentsSyncData. -/
structure PaymentsSyncData where
  amount : MinorUnit
  mandate_id : Option MandateIds
  connector_transaction_id : ResponseId
  encoded_data : Option String
  capture_method : Option String
  connector_meta : Option ConnectorMetadata
  sync_type : SyncRequestType
  payment_method_type : Option PaymentMethodType
  currency : Currency
  payment_experience : Option String
deriving DecidableEq, Repr

/-- PaymentsSyncData::try_from(PaymentAdditionalData): the sync Request
Builder (source lines 1398-1432). -/
def payments_sync_try_from (additional_data : PaymentAdditionalData) :
    Except ApiError PaymentsSyncData := do
  let payment_data := additional_data.payment_data
  let amount := (payment_data.surcharge_details.map
    fun surcharge_details => surcharge_details.final_amount).getD
    payment_data.amount
  Except.ok
    { amount := amount
      mandate_id := payment_data.mandate_id
      connector_transaction_id :=
        match payment_data.payment_attempt.connector_transaction_id with
        | some connector_txn_id => ResponseId.connectorTransactionId connector_txn_id
        | none => ResponseId.noResponseId
      encoded_data := payment_data.payment_attempt.encoded_data
      capture_method := payment_data.payment_attempt.capture_method
      connector_meta := payment_data.payment_attempt.connector_metadata
      sync_type :=
        match payment_data.multiple_capture_data with
        | some multiple_capture_data =>
            SyncRequestType.multipleCaptureSync
              multiple_capture_data.pending_connector_capture_ids
        | none => SyncRequestType.singlePaymentSync
      payment_method_type := payment_data.payment_attempt.payment_method_type
      currency := payment_data.currency
      payment_experience := payment_data.payment_attempt.payment_experience }

/-- types::MultipleCaptureRequestData. -/
structure MultipleCaptureRequestData where
  capture_sequence : Nat
  capture_reference : String
deriving DecidableEq, Repr

/-- types::PaymentsCaptureData. -/
structure PaymentsCaptureData where
  amount_to_capture : Int
  minor_amount_to_capture : MinorUnit
  currency : Currency
  connector_transaction_id : String
  payment_amount : Int
  minor_payment_amount : MinorUnit
  connector_meta : Option ConnectorMetadata
  multiple_capture_data : Option MultipleCaptureRequestData
  browser_info : Option BrowserInformation
  metadata : Option String
deriving DecidableEq, Repr

/-- PaymentsCaptureData::try_from(PaymentAdditionalData): the capture Request
Builder (source lines 1503-1554). -/
def payments_capture_try_from (additional_data : PaymentAdditionalData) :
    Except ApiError PaymentsCaptureData := do
  let payment_data := additional_data.payment_data
  let amount_to_capture :=
    (payment_data.payment_attempt.amount_to_capture).getD payment_data.amount
  let browser_info ← parse_browser_info
    payment_data.payment_attempt.browser_info_parsed
  let amount := payment_data.amount
  let resolved ← connector_transaction_id_resolve additional_data.connector_name
    payment_data.payment_attempt
  let connector_transaction_id ← ok_or_resource_id_not_found resolved
  Except.ok
    { amount_to_capture := amount_to_capture
      minor_amount_to_capture := amount_to_capture
      currency := payment_data.currency
      connector_transaction_id := connector_transaction_id
      payment_amount := amount
      minor_payment_amount := amount
      connector_meta := payment_data.payment_attempt.connector_metadata
      multiple_capture_data :=
        match payment_data.multiple_capture_data with
        | some multiple_capture_data =>
            some { capture_sequence := multiple_capture_data.captures_count
                   capture_reference := multiple_capture_data.latest_capture_id }
        | none => none
      browser_info := browser_info
      metadata := payment_data.payment_intent.metadata }

/-- types::PaymentsCancelData. -/
structure PaymentsCancelData where
  amount : Option Int
  minor_amount : Option MinorUnit
  currency : Option Currency
  connector_transaction_id : String
  cancellation_reason : Option String
  connector_meta : Option ConnectorMetadata
  browser_info : Option BrowserInformation
  metadata : Option String
deriving DecidableEq, Repr

/-- PaymentsCancelData::try_from(PaymentAdditionalData): the cancel Request
Builder (source lines 1556-1591). -/
def payments_cancel_try_from (additional_data : PaymentAdditionalData) :
    Except ApiError PaymentsCancelData := do
  let payment_data := additional_data.payment_data
  let browser_info ← parse_browser_info
    payment_data.payment_attempt.browser_info_parsed
  let amount := payment_data.amount
  let resolved ← connector_transaction_id_resolve additional_data.connector_name
    payment_data.payment_attempt
  let connector_transaction_id ← ok_or_resource_id_not_found resolved
  Except.ok
    { amount := some amount
      minor_amount := some amount
      currency := some payment_data.currency
      connector_transaction_id := connector_transaction_id
      cancellation_reason := payment_data.payment_attempt.cancellation_reason
      connector_meta := payment_data.payment_attempt.connector_metadata
      browser_info := browser_info
      metadata := payment_data.payment_intent.metadata }

/-- types::PaymentsApproveData. -/
structure PaymentsApproveData where
  amount : Option Int
  currency : Option Currency
deriving DecidableEq, Repr

/-- PaymentsApproveData::try_from(PaymentAdditionalData): the approve Request
Builder (source lines 1593-1604). -/
def payments_approve_try_from (additional_data : PaymentAdditionalData) :
    Except ApiError PaymentsApproveData := do
  let payment_data := additional_data.payment_data
  let amount := payment_data.amount
  Except.ok
    { amount := some amount
      currency := some payment_data.currency }

/-- types::PaymentsRejectData. -/
structure PaymentsRejectData where
  amount : Option Int
  currency : Option Currency
deriving DecidableEq, Repr

/-- PaymentsRejectData::try_from(PaymentAdditionalData): the reject Request
Builder (source lines 1606-1617). -/
def payments_reject_try_from (additional_data : PaymentAdditionalData) :
    Except ApiError PaymentsRejectData := do
  let payment_data := additional_data.payment_data
  let amount := payment_data.amount
  Except.ok
    { amount := some amount
      currency := some payment_data.currency }

/-- types::PaymentsSessionData. -/
structure PaymentsSessionData where
  amount : Int
  minor_amount : MinorUnit
  currency : Currency
  country : Option String
  order_details : Option (List OrderDetailsWithAmount)
  surcharge_details : Option SurchargeDetails
deriving DecidableEq, Repr

/-- PaymentsSessionData::try_from(PaymentAdditionalData): the session Request
Builder (source lines 1618-1664). -/
def payments_session_try_from (additional_data : PaymentAdditionalData) :
    Except ApiError PaymentsSessionData := do
  let payment_data := additional_data.payment_data
  let order_details ← parse_order_details
    additional_data.payment_data.payment_intent.order_details
  let amount := (payment_data.surcharge_details.map
    fun surcharge_details => surcharge_details.final_amount).getD
    payment_data.amount
  Except.ok
    { amount := amount
      minor_amount := amount
      currency := payment_data.currency
      country := payment_data.address.payment_method_billing.bind
        fun billing_address =>
          billing_address.address.bind fun address => address.country
      order_details := order_details
      surcharge_details := payment_data.surcharge_details }

/-- types::SetupMandateRequestData. -/
structure SetupMandateRequestData where
  currency : Currency
  confirm : Bool
  amount : Option Int
  minor_amount : Option MinorUnit
  payment_method_data : PaymentMethodData
  statement_descriptor_suffix : Option String
  setup_future_usage : Option String
  off_session : Option Bool
  mandate_id : Option MandateIds
  setup_mandate_details : Option MandateData
  customer_acceptance : Option CustomerAcceptance
  router_return_url : Option String
  email : Option String
  customer_name : Option String
  return_url : Option String
  browser_info : Option BrowserInformation
  payment_method_type : Option PaymentMethodType
  request_incremental_authorization : Bool
  metadata : Option String
deriving DecidableEq, Repr

/-- SetupMandateRequestData::try_from(PaymentAdditionalData): the
setup-mandate Request Builder (source lines 1666-1729). -/
def setup_mandate_try_from (additional_data : PaymentAdditionalData) :
    Except ApiError SetupMandateRequestData := do
  let payment_data := additional_data.payment_data
  let router_base_url := additional_data.router_base_url
  let connector_name := additional_data.connector_name
  let attempt := payment_data.payment_attempt
  let router_return_url :=
    some (create_redirect_url router_base_url attempt connector_name
      payment_data.creds_identifier)
  let browser_info ← parse_browser_info attempt.browser_info_parsed
  let customer_name := additional_data.customer_data.bind
    fun customer_data => customer_data.name
  let amount := payment_data.amount
  let payment_method_data_required ←
    get_required_value "payment_method_data" payment_data.payment_method_data
  Except.ok
    { currency := payment_data.currency
      confirm := true
      amount := some amount
      minor_amount := some amount
      payment_method_data := payment_method_data_required
      statement_descriptor_suffix :=
        payment_data.payment_intent.statement_descriptor_suffix
      setup_future_usage := payment_data.payment_intent.setup_future_usage
      off_session := payment_data.mandate_id.map fun _ => true
      mandate_id := payment_data.mandate_id
      setup_mandate_details := payment_data.setup_mandate
      customer_acceptance := payment_data.customer_acceptance
      router_return_url := router_return_url
      email := payment_data.email
      customer_name := customer_name
      return_url := payment_data.payment_intent.return_url
      browser_info := browser_info
      payment_method_type := attempt.payment_method_type
      request_incremental_authorization :=
        match payment_data.payment_intent.request_incremental_authorization with
        | some .reqTrue => true
        | some .reqDefault => true
        | _ => false
      metadata := payment_data.payment_intent.metadata }

/-- types::CompleteAuthorizeRedirectResponse. -/
structure CompleteAuthorizeRedirectResponse where
  params : Option String
  payload : Option String
deriving DecidableEq, Repr

/-- types::CompleteAuthorizeData. -/
structure CompleteAuthorizeData where
  setup_future_usage : Option String
  mandate_id : Option MandateIds
  off_session : Option Bool
  setup_mandate_details : Option MandateData
  confirm : Bool
  statement_descriptor_suffix : Option String
  capture_method : Option String
  amount : Int
  minor_amount : MinorUnit
  currency : Currency
  browser_info : Option BrowserInformation
  email : Option String
  payment_method_data : Option PaymentMethodData
  connector_transaction_id : Option String
  redirect_response : Option CompleteAuthorizeRedirectResponse
  connector_meta : Option ConnectorMetadata
  complete_authorize_url : Option String
  metadata : Option String
  customer_acceptance : Option CustomerAcceptance
deriving DecidableEq, Repr

/-- CompleteAuthorizeData::try_from(PaymentAdditionalData): the
complete-authorize Request Builder (source lines 1773-1829). -/
def complete_authorize_try_from (additional_data : PaymentAdditionalData) :
    Except ApiError CompleteAuthorizeData := do
  let payment_data := additional_data.payment_data
  let router_base_url := additional_data.router_base_url
  let connector_name := additional_data.connector_name
  let attempt := payment_data.payment_attempt
  let browser_info ← parse_browser_info
    payment_data.payment_attempt.browser_info_parsed
  let redirect_response := payment_data.redirect_response.map fun redirect =>
    ({ params := redirect.param
       payload := redirect.json_payload } : CompleteAuthorizeRedirectResponse)
  let amount := (payment_data.surcharge_details.map
    fun surcharge_details => surcharge_details.final_amount).getD
    payment_data.amount
  let complete_authorize_url :=
    some (create_complete_authorize_url router_base_url attempt connector_name)
  Except.ok
    { setup_future_usage := payment_data.payment_intent.setup_future_usage
      mandate_id := payment_data.mandate_id
      off_session := payment_data.mandate_id.map fun _ => true
      setup_mandate_details := payment_data.setup_mandate
      confirm := payment_data.payment_attempt.confirm
      statement_descriptor_suffix :=
        payment_data.payment_intent.statement_descriptor_suffix
      capture_method := payment_data.payment_attempt.capture_method
      amount := amount
      minor_amount := amount
      currency := payment_data.currency
      browser_info := browser_info
      email := payment_data.email
      payment_method_data := payment_data.payment_method_data
      connector_transaction_id :=
        payment_data.payment_attempt.connector_transaction_id
      redirect_response := redirect_response
      connector_meta := payment_data.payment_attempt.connector_metadata
      complete_authorize_url := complete_authorize_url
      metadata := payment_data.payment_intent.metadata
      customer_acceptance := payment_data.customer_acceptance }

/-- types::PaymentsPreProcessingData. -/
structure PaymentsPreProcessingData where
  payment_method_data : Option PaymentMethodData
  email : Option String
  currency : Option Currency
  amount : Option Int
  minor_amount : Option MinorUnit
  payment_method_type : Option PaymentMethodType
  setup_mandate_details : Option MandateData
  capture_method : Option String
  order_details : Option (List OrderDetailsWithAmount)
  router_return_url : Option String
  webhook_url : Option String
  complete_authorize_url : Option String
  browser_info : Option BrowserInformation
  surcharge_details : Option SurchargeDetails
  connector_transaction_id : Option String
  redirect_response : Option CompleteAuthorizeRedirectResponse
  mandate_id : Option MandateIds
  related_transaction_id : Option String
  enrolled_for_3ds : Bool
deriving DecidableEq, Repr

/-- PaymentsPreProcessingData::try_from(PaymentAdditionalData): the
pre-processing Request Builder (source lines 1831-1912). -/
def payments_pre_processing_try_from (additional_data : PaymentAdditionalData) :
    Except ApiError PaymentsPreProcessingData := do
  let payment_data := additional_data.payment_data
  let payment_method_data := payment_data.payment_method_data
  let router_base_url := additional_data.router_base_url
  let attempt := payment_data.payment_attempt
  let connector_name := additional_data.connector_name
  let order_details ← parse_order_details payment_data.payment_intent.order_details
  let webhook_url :=
    some (create_webhook_url router_base_url attempt.merchant_id connector_name)
  let router_return_url :=
    some (create_redirect_url router_base_url attempt connector_name
      payment_data.creds_identifier)
  let complete_authorize_url :=
    some (create_complete_authorize_url router_base_url attempt connector_name)
  let browser_info ← parse_browser_info
    payment_data.payment_attempt.browser_info_parsed
  let amount := (payment_data.surcharge_details.map
    fun surcharge_details => surcharge_details.final_amount).getD
    payment_data.amount
  Except.ok
    { payment_method_data := payment_method_data
      email := payment_data.email
      currency := some payment_data.currency
      amount := some amount
      minor_amount := some amount
      payment_method_type := payment_data.payment_attempt.payment_method_type
      setup_mandate_details := payment_data.setup_mandate
      capture_method := payment_data.payment_attempt.capture_method
      order_details := order_details
      router_return_url := router_return_url
      webhook_url := webhook_url
      complete_authorize_url := complete_authorize_url
      browser_info := browser_info
      surcharge_details := payment_data.surcharge_details
      connector_transaction_id :=
        payment_data.payment_attempt.connector_transaction_id
      redirect_response := none
      mandate_id := payment_data.mandate_id
      related_transaction_id := none
      enrolled_for_3ds := true }

/-! Concrete fixtures used to evaluate the definitions on explicit inputs. -/

/-- A baseline attempt with no optional data. -/
def baseAttempt : PaymentAttempt :=
  { payment_id := "pay_1", merchant_id := "m_1", attempt_id := "pay_1_1"
    status := AttemptStatus.pending, amount := 100, net_amount := 100
    amount_capturable := 0, amount_to_capture := none, surcharge_amount := none
    tax_amount := none, currency := some Currency.USD, payment_method := none
    payment_method_type := none, connector := none
    connector_transaction_id := some "txn_1", connector_metadata := none
    authentication_type := none, authentication_data := none
    browser_info_parsed := none, payment_method_data_parsed := none
    error_code := none, error_message := none, error_reason := none
    cancellation_reason := none, payment_token := none, capture_method := none
    payment_experience := none, mandate_id := none, confirm := true
    encoded_data := none, business_sub_label := none, unified_code := none
    unified_message := none, external_three_ds_authentication_attempted := none
    payment_method_id := none, charge_id := none, merchant_connector_id := none
    connector_response_reference_id := none }

/-- A baseline intent with no optional data. -/
def baseIntent : PaymentIntent :=
  { payment_id := "pay_1", merchant_id := "m_1"
    status := IntentStatus.processing, amount := 100, amount_captured := none
    currency := some Currency.USD, customer_details := none
    client_secret := none, created_at := 0, modified_at := 0
    description := none, return_url := none, metadata := none
    order_details := none, connector_metadata := none, charges := none
    setup_future_usage := none, statement_descriptor_name := none
    statement_descriptor_suffix := none, business_country := none
    business_label := none, allowed_payment_method_types := none
    merchant_decision := none, payment_confirm_source := none
    feature_metadata := none, frm_metadata := none, fingerprint_id := none
    profile_id := none, attempt_count := 1, merchant_connector_id := none
    incremental_authorization_allowed := none, authorization_count := none
    session_expiry := none, request_incremental_authorization := none
    merchant_order_reference_id := none }

/-- An empty address set. -/
def baseAddress : PaymentAddress :=
  { shipping := none, payment_billing := none
    request_payment_method_billing := none, payment_method_billing := none }

/-- A baseline aggregate: card payment-method data, no side-collections. -/
def basePaymentData : PaymentData :=
  { payment_intent := baseIntent, payment_attempt := baseAttempt
    amount := 100, currency := Currency.USD, email := none, mandate_id := none
    setup_mandate := none, customer_acceptance := none, surcharge_details := none
    payment_method_data := some (PaymentMethodData.cardData "card"), refunds := []
    disputes := [], authorizations := [], attempts := none
    multiple_capture_data := none, authentication := none, poll_config := none
    sessions_token := [], payment_method_info := none, frm_message := none
    address := baseAddress, redirect_response := none, creds_identifier := none
    token := none, ephemeral_key := none, payment_link_data := none }

/-- Baseline builder context. -/
def baseAdditionalData : PaymentAdditionalData :=
  { router_base_url := "https://router.test", connector_name := "stripe"
    payment_data := basePaymentData, customer_data := none }

/-- Empty reference-id config. -/
def baseConfig : ConnectorRequestReferenceIdConfig :=
  { merchant_ids_send_payment_id_as_connector_request_id := [] }

/-- Connector metadata with no parseable shape. -/
def emptyMeta : ConnectorMetadata :=
  { next_steps_bank := none, next_steps_voucher := none, qr_code := none
    fetch_qr := none, sdk_next_action := none, wait_screen := none
    meta_txn_id := none }

/-! Generic helper lemmas about the `Except` monad, used to destruct the
embedded do-blocks in proofs. -/

/-- Bind in `Except` yields ok exactly when both stages do. -/
theorem except_bind_ok {α β : Type} {e : Except ApiError α}
    {f : α → Except ApiError β} {b : β} :
    (e >>= f) = Except.ok b ↔ ∃ a, e = Except.ok a ∧ f a = Except.ok b := by
  cases e with
  | error err =>
      simp [show ((Except.error err : Except ApiError α) >>= f) =
        Except.error err from rfl]
  | ok a =>
      simp [show ((Except.ok a : Except ApiError α) >>= f) = f a from rfl]

/-- Bind on an ok value reduces. -/
@[simp] theorem ok_bind {α β : Type} (a : α) (f : α → Except ApiError β) :
    (Except.ok a >>= f) = f a := rfl

/-- Bind on an error short-circuits. -/
@[simp] theorem error_bind {α β : Type} (e : ApiError)
    (f : α → Except ApiError β) :
    ((Except.error e : Except ApiError α) >>= f) = Except.error e := rfl

/-! Claim theorems. -/

/-- C4: for every capture-sync error outcome, the Capture Reconciler produces
an error-update whose status is Pending when the reported status code lies in
[500, 511] and Failed for every other status code (in particular 500 and 511
map to Pending, 499 and 512 to Failed), with error code, message and reason
passed through unmodified. -/
theorem capture_error_update_bucketing :
    (∀ (code message : String) (reason : Option String) (status_code : Nat),
      capture_update_foreign_try_from
        (CaptureSyncResponse.error code message reason status_code) =
      Except.ok (CaptureUpdate.errorUpdate
        (if 500 ≤ status_code ∧ status_code ≤ 511 then CaptureStatus.pending
          else CaptureStatus.failed)
        (some code) (some message) reason)) ∧
    capture_update_foreign_try_from (CaptureSyncResponse.error "c" "m" none 500) =
      Except.ok (CaptureUpdate.errorUpdate CaptureStatus.pending (some "c")
        (some "m") none) ∧
    capture_update_foreign_try_from (CaptureSyncResponse.error "c" "m" none 511) =
      Except.ok (CaptureUpdate.errorUpdate CaptureStatus.pending (some "c")
        (some "m") none) ∧
    capture_update_foreign_try_from (CaptureSyncResponse.error "c" "m" none 499) =
      Except.ok (CaptureUpdate.errorUpdate CaptureStatus.failed (some "c")
        (some "m") none) ∧
    capture_update_foreign_try_from (CaptureSyncResponse.error "c" "m" none 512) =
      Except.ok (CaptureUpdate.errorUpdate CaptureStatus.failed (some "c")
        (some "m") none) := by
  refine ⟨fun code message reason status_code => rfl, ?_, ?_, ?_, ?_⟩ <;>
    simp [capture_update_foreign_try_from]

/-- C6: for every Attempt with payment method bank-transfer and method-type
Pix the bank-transfer candidate is absent regardless of metadata, and the
candidate can only be produced when the payment method is bank-transfer and
the method-type is not Pix. -/
theorem bank_transfer_pix_excluded :
    ∀ (pa : PaymentAttempt),
      (pa.payment_method = some PaymentMethod.bankTransfer →
        pa.payment_method_type = some PaymentMethodType.pix →
        bank_transfer_next_steps_check pa = Except.ok none) ∧
      (∀ d, bank_transfer_next_steps_check pa = Except.ok (some d) →
        pa.payment_method = some PaymentMethod.bankTransfer ∧
        pa.payment_method_type ≠ some PaymentMethodType.pix) := by
  intro pa
  constructor
  · intro h1 h2
    unfold bank_transfer_next_steps_check
    simp [h1, h2]
  · intro d h
    unfold bank_transfer_next_steps_check at h
    split at h
    · split at h
      · refine ⟨by assumption, by assumption⟩
      · simp at h
    · simp at h

/-- A Pix bank-transfer attempt whose metadata even carries a parseable
bank-transfer shape. -/
def pixAttempt : PaymentAttempt :=
  { baseAttempt with
    payment_method := some PaymentMethod.bankTransfer
    payment_method_type := some PaymentMethodType.pix
    connector_metadata := some { emptyMeta with
      next_steps_bank := some { steps_and_charges := "iban" } } }

/-- Witness for C6 at the Pix attempt. -/
theorem bank_transfer_pix_excluded_witness :
    bank_transfer_next_steps_check pixAttempt = Except.ok none :=
  (bank_transfer_pix_excluded pixAttempt).1 rfl rfl

/-- C8: a `QrCodeUrl` value stored in connector metadata passes through the
Next-Action Resolver losslessly: the check returns it unchanged and the
foreign_from conversion populates both URLs and carries the timestamp. -/
theorem qr_code_url_round_trip :
    ∀ (image_data_url qr_code_url : String) (display_to_timestamp : Option Int)
      (pa : PaymentAttempt) (m : ConnectorMetadata),
      pa.connector_metadata = some m →
      m.qr_code = some (QrCodeInformation.qrCodeUrl image_data_url qr_code_url
        display_to_timestamp) →
      qr_code_next_steps_check pa = Except.ok (some
        (QrCodeInformation.qrCodeUrl image_data_url qr_code_url
          display_to_timestamp)) ∧
      next_action_data_foreign_from_qr (QrCodeInformation.qrCodeUrl
          image_data_url qr_code_url display_to_timestamp) =
        NextActionData.qrCodeInformation (some image_data_url)
          (some qr_code_url) display_to_timestamp := by
  intro i u t pa m h1 h2
  constructor
  · unfold qr_code_next_steps_check
    rw [h1]
    simp [Option.bind, h2]
  · rfl

/-- A QR-code attempt carrying the url+image flavor in its metadata. -/
def qrAttempt : PaymentAttempt :=
  { baseAttempt with
    connector_metadata := some { emptyMeta with
      qr_code := some (QrCodeInformation.qrCodeUrl "data:image/png"
        "https://qr.test" (some 99)) } }

/-- Witness for C8 at a concrete QR attempt. -/
theorem qr_code_url_round_trip_witness :
    qr_code_next_steps_check qrAttempt = Except.ok (some
      (QrCodeInformation.qrCodeUrl "data:image/png" "https://qr.test"
        (some 99))) ∧
    next_action_data_foreign_from_qr (QrCodeInformation.qrCodeUrl
        "data:image/png" "https://qr.test" (some 99)) =
      NextActionData.qrCodeInformation (some "data:image/png")
        (some "https://qr.test") (some 99) :=
  qr_code_url_round_trip "data:image/png" "https://qr.test" (some 99)
    qrAttempt _ rfl rfl

/-- C9: the full-payment Response Synthesizer is deterministic — it is a pure
function of the Aggregate and auxiliary arguments, so two invocations on the
same inputs produce identical output values and header lists. -/
theorem response_synthesis_deterministic :
    ∀ (payment_data : PaymentData) (captures : Option (List String))
      (customer : Option Customer) (auth_flow : AuthFlow) (base_url : String)
      (operation : Operation) (cfg : ConnectorRequestReferenceIdConfig)
      (code : Option Nat) (latency : Option Nat) (lhe : Option Bool),
      payments_to_payments_response payment_data captures customer auth_flow
        base_url operation cfg code latency lhe =
      payments_to_payments_response payment_data captures customer auth_flow
        base_url operation cfg code latency lhe :=
  fun _ _ _ _ _ _ _ _ _ _ => rfl

/-! Helper lemmas: the amount each builder derives, read off its successful
result. -/

/-- The authorize builder's derived amount is surcharge-final-or-base. -/
theorem authorize_ok_amount (ad : PaymentAdditionalData) (r : PaymentsAuthorizeData)
    (h : payments_authorize_try_from ad = Except.ok r) :
    r.minor_amount = (ad.payment_data.surcharge_details.map
      fun s => s.final_amount).getD ad.payment_data.amount := by
  unfold payments_authorize_try_from at h
  simp only [except_bind_ok] at h
  obtain ⟨bi, hbi, oc, hoc, od, hod, ch, hch, pmd, hpmd, authd, hauthd, h⟩ := h
  injection h with h
  subst h
  rfl

/-- The sync builder's derived amount is surcharge-final-or-base. -/
theorem sync_ok_amount (ad : PaymentAdditionalData) (r : PaymentsSyncData)
    (h : payments_sync_try_from ad = Except.ok r) :
    r.amount = (ad.payment_data.surcharge_details.map
      fun s => s.final_amount).getD ad.payment_data.amount := by
  unfold payments_sync_try_from at h
  injection h with h
  subst h
  rfl

/-- The session builder's derived amount is surcharge-final-or-base. -/
theorem session_ok_amount (ad : PaymentAdditionalData) (r : PaymentsSessionData)
    (h : payments_session_try_from ad = Except.ok r) :
    r.minor_amount = (ad.payment_data.surcharge_details.map
      fun s => s.final_amount).getD ad.payment_data.amount := by
  unfold payments_session_try_from at h
  simp only [except_bind_ok] at h
  obtain ⟨od, hod, h⟩ := h
  injection h with h
  subst h
  rfl

/-- The complete-authorize builder's derived amount is
surcharge-final-or-base. -/
theorem complete_authorize_ok_amount (ad : PaymentAdditionalData)
    (r : CompleteAuthorizeData)
    (h : complete_authorize_try_from ad = Except.ok r) :
    r.minor_amount = (ad.payment_data.surcharge_details.map
      fun s => s.final_amount).getD ad.payment_data.amount := by
  unfold complete_authorize_try_from at h
  simp only [except_bind_ok] at h
  obtain ⟨bi, hbi, h⟩ := h
  injection h with h
  subst h
  rfl

/-- The pre-processing builder's derived amount is surcharge-final-or-base. -/
theorem pre_processing_ok_amount (ad : PaymentAdditionalData)
    (r : PaymentsPreProcessingData)
    (h : payments_pre_processing_try_from ad = Except.ok r) :
    r.minor_amount = some ((ad.payment_data.surcharge_details.map
      fun s => s.final_amount).getD ad.payment_data.amount) := by
  unfold payments_pre_processing_try_from at h
  simp only [except_bind_ok] at h
  obtain ⟨od, hod, bi, hbi, h⟩ := h
  injection h with h
  subst h
  rfl

/-- The approve builder's derived amount is the base amount. -/
theorem approve_ok_amount (ad : PaymentAdditionalData) (r : PaymentsApproveData)
    (h : payments_approve_try_from ad = Except.ok r) :
    r.amount = some ad.payment_data.amount := by
  unfold payments_approve_try_from at h
  injection h with h
  subst h
  rfl

/-- The reject builder's derived amount is the base amount. -/
theorem reject_ok_amount (ad : PaymentAdditionalData) (r : PaymentsRejectData)
    (h : payments_reject_try_from ad = Except.ok r) :
    r.amount = some ad.payment_data.amount := by
  unfold payments_reject_try_from at h
  injection h with h
  subst h
  rfl

/-- The setup-mandate builder's derived amount is the base amount. -/
theorem setup_mandate_ok_amount (ad : PaymentAdditionalData)
    (r : SetupMandateRequestData)
    (h : setup_mandate_try_from ad = Except.ok r) :
    r.minor_amount = some ad.payment_data.amount := by
  unfold setup_mandate_try_from at h
  simp only [except_bind_ok] at h
  obtain ⟨bi, hbi, pmd, hpmd, h⟩ := h
  injection h with h
  subst h
  rfl

/-- The cancel builder's derived amount is the base amount. -/
theorem cancel_ok_amount (ad : PaymentAdditionalData) (r : PaymentsCancelData)
    (h : payments_cancel_try_from ad = Except.ok r) :
    r.minor_amount = some ad.payment_data.amount := by
  unfold payments_cancel_try_from at h
  simp only [except_bind_ok] at h
  obtain ⟨bi, hbi, res, hres, ctid, hctid, h⟩ := h
  injection h with h
  subst h
  rfl

/-- The capture builder's derived amounts: amount-to-capture prefers the
attempt's field, else the base amount; the payment amount is the base. -/
theorem capture_ok_amount (ad : PaymentAdditionalData) (r : PaymentsCaptureData)
    (h : payments_capture_try_from ad = Except.ok r) :
    r.minor_amount_to_capture =
      (ad.payment_data.payment_attempt.amount_to_capture).getD
        ad.payment_data.amount ∧
    r.minor_payment_amount = ad.payment_data.amount := by
  unfold payments_capture_try_from at h
  simp only [except_bind_ok] at h
  obtain ⟨bi, hbi, res, hres, ctid, hctid, h⟩ := h
  injection h with h
  subst h
  exact ⟨rfl, rfl⟩

/-- C1 counterexample prerequisites: an aggregate with base amount 100 and a
surcharge whose final amount is 120. -/
def surchargedData : PaymentData :=
  { basePaymentData with
    surcharge_details := some
      ({ surcharge_amount := 20, tax_amount := none, final_amount := 120 } :
        SurchargeDetails) }

/-- Builder context over the surcharged aggregate. -/
def surchargedAdditional : PaymentAdditionalData :=
  { baseAdditionalData with payment_data := surchargedData }

/-- C1 counterexample: with surcharge final amount 120 present, the approve
builder (one of the builders the claim quantifies over) derives the base
amount 100, not 120 — refuting "every builder produces s.final_amount". -/
theorem surcharge_override_counterexample :
    surchargedData.surcharge_details =
      some { surcharge_amount := 20, tax_amount := none, final_amount := 120 } ∧
    payments_approve_try_from surchargedAdditional =
      Except.ok { amount := some 100, currency := some Currency.USD } ∧
    (100 : Int) ≠ 120 :=
  ⟨rfl, rfl, by decide⟩

/-- C1 amended: when surcharge details are present, the authorize, sync,
session, complete-authorize and pre-processing builders derive
s.final_amount; the capture, cancel, approve, reject and setup-mandate
builders derive from the base amount instead (capture preferring the
attempt's amount_to_capture), never from s.final_amount. -/
theorem surcharge_final_amount_builders (ad : PaymentAdditionalData)
    (s : SurchargeDetails)
    (hs : ad.payment_data.surcharge_details = some s) :
    (∀ r, payments_authorize_try_from ad = Except.ok r →
      r.minor_amount = s.final_amount) ∧
    (∀ r, payments_sync_try_from ad = Except.ok r →
      r.amount = s.final_amount) ∧
    (∀ r, payments_session_try_from ad = Except.ok r →
      r.minor_amount = s.final_amount) ∧
    (∀ r, complete_authorize_try_from ad = Except.ok r →
      r.minor_amount = s.final_amount) ∧
    (∀ r, payments_pre_processing_try_from ad = Except.ok r →
      r.minor_amount = some s.final_amount) ∧
    (∀ r, payments_approve_try_from ad = Except.ok r →
      r.amount = some ad.payment_data.amount) ∧
    (∀ r, payments_reject_try_from ad = Except.ok r →
      r.amount = some ad.payment_data.amount) ∧
    (∀ r, setup_mandate_try_from ad = Except.ok r →
      r.minor_amount = some ad.payment_data.amount) ∧
    (∀ r, payments_cancel_try_from ad = Except.ok r →
      r.minor_amount = some ad.payment_data.amount) ∧
    (∀ r, payments_capture_try_from ad = Except.ok r →
      r.minor_amount_to_capture =
        (ad.payment_data.payment_attempt.amount_to_capture).getD
          ad.payment_data.amount ∧
      r.minor_payment_amount = ad.payment_data.amount) := by
  refine ⟨?_, ?_, ?_, ?_, ?_, ?_, ?_, ?_, ?_, ?_⟩
  · intro r h
    rw [authorize_ok_amount ad r h, hs]
    rfl
  · intro r h
    rw [sync_ok_amount ad r h, hs]
    rfl
  · intro r h
    rw [session_ok_amount ad r h, hs]
    rfl
  · intro r h
    rw [complete_authorize_ok_amount ad r h, hs]
    rfl
  · intro r h
    rw [pre_processing_ok_amount ad r h, hs]
    rfl
  · exact approve_ok_amount ad
  · exact reject_ok_amount ad
  · exact setup_mandate_ok_amount ad
  · exact cancel_ok_amount ad
  · exact capture_ok_amount ad

/-- Witness for the amended C1 at the surcharged aggregate: the authorize
builder derives 120, the approve builder 100. -/
theorem surcharge_final_amount_builders_witness :
    (payments_authorize_try_from surchargedAdditional).toOption.map
      (fun r => r.minor_amount) = some 120 ∧
    (payments_approve_try_from surchargedAdditional).toOption.map
      (fun r => r.amount) = some (some 100) := by
  have h := surcharge_final_amount_builders surchargedAdditional
    { surcharge_amount := 20, tax_amount := none, final_amount := 120 } rfl
  constructor
  · have hok : (payments_authorize_try_from surchargedAdditional).isOk = true := by
      decide
    cases hr : payments_authorize_try_from surchargedAdditional with
    | ok r => simp [Except.toOption, h.1 r hr]
    | error e => rw [hr] at hok; simp [Except.isOk, Except.toBool] at hok
  · have hok : (payments_approve_try_from surchargedAdditional).isOk = true := by
      decide
    cases hr : payments_approve_try_from surchargedAdditional with
    | ok r =>
        simp [Except.toOption, h.2.2.2.2.2.1 r hr, surchargedAdditional,
          surchargedData, basePaymentData]
    | error e => rw [hr] at hok; simp [Except.isOk, Except.toBool] at hok

/-- An aggregate with no payment-method data but a mandate id. -/
def mandateOnlyData : PaymentData :=
  { basePaymentData with
    payment_method_data := none
    mandate_id := some ({ mandate_id := some "man_1" } : MandateIds) }

/-- Builder context over the mandate-only aggregate. -/
def mandateOnlyAdditional : PaymentAdditionalData :=
  { baseAdditionalData with payment_data := mandateOnlyData }

/-- An aggregate with neither payment-method data nor a mandate id. -/
def noPmdData : PaymentData :=
  { basePaymentData with payment_method_data := none }

/-- Builder context over the no-payment-method-data aggregate. -/
def noPmdAdditional : PaymentAdditionalData :=
  { baseAdditionalData with payment_data := noPmdData }

/-- C2 counterexample: in the authorize flow — one of the flows the claim
exempts from the mandate-payment default — an aggregate with no
payment-method data but a mandate id BUILDS SUCCESSFULLY with the
mandate-payment variant instead of failing with a missing-required-value
error, refuting the claim's exception for authorize. -/
theorem mandate_default_counterexample :
    mandateOnlyData.payment_method_data = none ∧
    mandateOnlyData.mandate_id.isSome = true ∧
    (payments_authorize_try_from mandateOnlyAdditional).isOk = true ∧
    (payments_authorize_try_from mandateOnlyAdditional).toOption.map
      (fun r => r.payment_method_data) = some PaymentMethodData.mandatePayment := by
  refine ⟨rfl, rfl, by decide, by decide⟩

/-- C2 amended: in every builder that sets it, off-session is Some(true) iff
a mandate id is present; in authorize, absent payment-method data with a
mandate id present defaults to the mandate-payment variant and the build does
not fail on that field — the missing-required-value failure for
"payment_method_data" occurs in authorize only when no mandate id is present
either, and in setup-mandate always when payment-method data is absent
(regardless of any mandate id). -/
theorem mandate_off_session_and_default (ad : PaymentAdditionalData) :
    (∀ r, payments_authorize_try_from ad = Except.ok r →
      r.off_session = ad.payment_data.mandate_id.map (fun _ => true) ∧
      r.mandate_id = ad.payment_data.mandate_id) ∧
    (∀ r, setup_mandate_try_from ad = Except.ok r →
      r.off_session = ad.payment_data.mandate_id.map (fun _ => true)) ∧
    (∀ r, complete_authorize_try_from ad = Except.ok r →
      r.off_session = ad.payment_data.mandate_id.map (fun _ => true)) ∧
    (ad.payment_data.payment_method_data = none →
      ad.payment_data.mandate_id.isSome = true →
      ∀ r, payments_authorize_try_from ad = Except.ok r →
        r.payment_method_data = PaymentMethodData.mandatePayment) ∧
    (ad.payment_data.payment_method_data = none →
      ad.payment_data.mandate_id = none →
      (payments_authorize_try_from ad).isOk = false) ∧
    (ad.payment_data.payment_method_data = none →
      ad.payment_data.mandate_id = none →
      ∀ bi oc od ch,
        parse_browser_info ad.payment_data.payment_attempt.browser_info_parsed =
          Except.ok bi →
        parse_order_category ad.payment_data.payment_intent.connector_metadata =
          Except.ok oc →
        parse_order_details ad.payment_data.payment_intent.order_details =
          Except.ok od →
        parse_payment_charges ad.payment_data.payment_intent.charges =
          Except.ok ch →
        payments_authorize_try_from ad =
          Except.error (ApiError.missingRequiredValue "payment_method_data")) ∧
    (ad.payment_data.payment_method_data = none →
      (setup_mandate_try_from ad).isOk = false) := by
  refine ⟨?_, ?_, ?_, ?_, ?_, ?_, ?_⟩
  · intro r h
    unfold payments_authorize_try_from at h
    simp only [except_bind_ok] at h
    obtain ⟨bi, hbi, oc, hoc, od, hod, ch, hch, pmd, hpmd, authd, hauthd, h⟩ := h
    injection h with h
    subst h
    exact ⟨rfl, rfl⟩
  · intro r h
    unfold setup_mandate_try_from at h
    simp only [except_bind_ok] at h
    obtain ⟨bi, hbi, pmd, hpmd, h⟩ := h
    injection h with h
    subst h
    rfl
  · intro r h
    unfold complete_authorize_try_from at h
    simp only [except_bind_ok] at h
    obtain ⟨bi, hbi, h⟩ := h
    injection h with h
    subst h
    rfl
  · intro h1 h2 r h
    unfold payments_authorize_try_from at h
    simp only [except_bind_ok] at h
    obtain ⟨bi, hbi, oc, hoc, od, hod, ch, hch, pmd, hpmd, authd, hauthd, h⟩ := h
    rw [h1, h2] at hpmd
    simp [get_required_value, Option.or] at hpmd
    injection h with h
    subst h
    exact hpmd.symm
  · intro h1 h2
    cases hv : payments_authorize_try_from ad with
    | error e => simp [Except.isOk, Except.toBool]
    | ok r =>
        exfalso
        unfold payments_authorize_try_from at hv
        simp only [except_bind_ok] at hv
        obtain ⟨bi, hbi, oc, hoc, od, hod, ch, hch, pmd, hpmd, authd, hauthd, hv⟩ := hv
        rw [h1, h2] at hpmd
        simp [get_required_value, Option.or] at hpmd
  · intro h1 h2 bi oc od ch hbi hoc hod hch
    unfold payments_authorize_try_from
    simp [hbi, hoc, hod, hch, h1, h2, get_required_value, Option.or]
  · intro h1
    cases hv : setup_mandate_try_from ad with
    | error e => simp [Except.isOk, Except.toBool]
    | ok r =>
        exfalso
        unfold setup_mandate_try_from at hv
        simp only [except_bind_ok] at hv
        obtain ⟨bi, hbi, pmd, hpmd, hv⟩ := hv
        rw [h1] at hpmd
        simp [get_required_value] at hpmd

/-- Witness for the amended C2: the mandate-only aggregate authorizes with
the mandate-payment variant and off-session Some(true); the aggregate with
no payment-method data cannot setup-mandate. -/
theorem mandate_off_session_and_default_witness :
    (payments_authorize_try_from mandateOnlyAdditional).toOption.map
      (fun r => (r.payment_method_data, r.off_session)) =
      some (PaymentMethodData.mandatePayment, some true) ∧
    (setup_mandate_try_from noPmdAdditional).isOk = false := by
  constructor
  · have h := mandate_off_session_and_default mandateOnlyAdditional
    have hok : (payments_authorize_try_from mandateOnlyAdditional).isOk = true := by
      decide
    cases hr : payments_authorize_try_from mandateOnlyAdditional with
    | ok r =>
        have h4 := h.2.2.2.1 rfl rfl r hr
        have h1 := (h.1 r hr).1
        simp [Except.toOption, h4, h1, mandateOnlyAdditional, mandateOnlyData]
    | error e => rw [hr] at hok; simp [Except.isOk, Except.toBool] at hok
  · exact (mandate_off_session_and_default noPmdAdditional).2.2.2.2.2.2 rfl

/-- Destructuring lemma: every JSON result of the Response Synthesizer has
its error fields, customer field and next action determined by the inputs as
the source's setter chain writes them. -/
theorem payments_response_json_fields
    (payment_data : PaymentData) (captures : Option (List String))
    (customer : Option Customer) (auth_flow : AuthFlow) (base_url : String)
    (operation : Operation) (cfg : ConnectorRequestReferenceIdConfig)
    (code : Option Nat) (latency : Option Nat) (lhe : Option Bool)
    (resp : PaymentsResponse) (headers : List (String × String))
    (h : payments_to_payments_response payment_data captures customer auth_flow
      base_url operation cfg code latency lhe =
      Except.ok (ApplicationResponse.jsonWithHeaders resp headers)) :
    resp.error_message = payment_data.payment_attempt.error_reason.or
      payment_data.payment_attempt.error_message ∧
    resp.error_code = payment_data.payment_attempt.error_code ∧
    resp.customer = customer_details_response_of
      payment_data.payment_intent.customer_details customer ∧
    ∃ bank voucher qr fetch paypal wait chain,
      bank_transfer_next_steps_check payment_data.payment_attempt =
        Except.ok bank ∧
      voucher_next_steps_check payment_data.payment_attempt = Except.ok voucher ∧
      qr_code_next_steps_check payment_data.payment_attempt = Except.ok qr ∧
      fetch_qr_code_url_next_steps_check payment_data.payment_attempt =
        Except.ok fetch ∧
      paypal_sdk_next_steps_check payment_data.payment_attempt =
        Except.ok paypal ∧
      wait_screen_next_steps_check payment_data.payment_attempt = Except.ok wait ∧
      resolve_next_action_chain payment_data base_url bank voucher qr fetch
        paypal wait = Except.ok chain ∧
      resp.next_action =
        (if third_party_sdk_session_next_action payment_data.payment_attempt
            operation then
          some (NextActionData.thirdPartySdkSessionToken
            payment_data.sessions_token.head?)
        else chain) := by
  unfold payments_to_payments_response at h
  simp only [except_bind_ok] at h
  obtain ⟨currency, hcur, amount, hamt, apmd, hapmd, h⟩ := h
  split at h
  · simp only [except_bind_ok] at h
    obtain ⟨rd, hrd, form, hform, h⟩ := h
    simp at h
  · simp only [except_bind_ok] at h
    obtain ⟨bank, hbank, voucher, hvoucher, qr, hqr, paypal, hpaypal, fetch,
      hfetch, wait, hwait, chain, hchain, charges, hcharges, h⟩ := h
    injection h with h
    injection h with h1 h2
    subst h1
    subst h2
    exact ⟨rfl, rfl, rfl, bank, voucher, qr, fetch, paypal, wait, chain,
      hbank, hvoucher, hqr, hfetch, hpaypal, hwait, hchain, rfl⟩

/-- C10: in the full payment response, error_message equals the attempt's
error_reason when present and the attempt's error_message only when
error_reason is absent; error_code is the attempt's error_code forwarded
unchanged. -/
theorem error_fields_forwarding :
    ∀ (payment_data : PaymentData) (captures : Option (List String))
      (customer : Option Customer) (auth_flow : AuthFlow) (base_url : String)
      (operation : Operation) (cfg : ConnectorRequestReferenceIdConfig)
      (code : Option Nat) (latency : Option Nat) (lhe : Option Bool)
      (resp : PaymentsResponse) (headers : List (String × String)),
      payments_to_payments_response payment_data captures customer auth_flow
        base_url operation cfg code latency lhe =
        Except.ok (ApplicationResponse.jsonWithHeaders resp headers) →
      resp.error_message = payment_data.payment_attempt.error_reason.or
        payment_data.payment_attempt.error_message ∧
      (∀ reason, payment_data.payment_attempt.error_reason = some reason →
        resp.error_message = some reason) ∧
      (payment_data.payment_attempt.error_reason = none →
        resp.error_message = payment_data.payment_attempt.error_message) ∧
      resp.error_code = payment_data.payment_attempt.error_code := by
  intro payment_data captures customer auth_flow base_url operation cfg code
    latency lhe resp headers h
  obtain ⟨hm, hc, _, _⟩ := payments_response_json_fields payment_data captures
    customer auth_flow base_url operation cfg code latency lhe resp headers h
  refine ⟨hm, ?_, ?_, hc⟩
  · intro reason hr
    rw [hm, hr]
    rfl
  · intro hr
    rw [hm, hr]
    rfl

/-- An aggregate whose attempt carries error reason, message and code. -/
def errData : PaymentData :=
  { basePaymentData with
    payment_attempt := { baseAttempt with
      error_reason := some "reason", error_message := some "msg"
      error_code := some "E1" } }

/-- Witness for C10: on the error-bearing aggregate the response carries the
reason as error_message and the code unchanged. -/
theorem error_fields_forwarding_witness :
    (payments_to_payments_response errData none none AuthFlow.merchant "b"
      Operation.paymentStatus baseConfig none none none).toOption.map
      (fun out => match out with
        | ApplicationResponse.jsonWithHeaders resp _ =>
            some (resp.error_message, resp.error_code)
        | _ => none) = some (some (some "reason", some "E1")) := by
  have hshape : (match payments_to_payments_response errData none none
      AuthFlow.merchant "b" Operation.paymentStatus baseConfig none none none with
    | Except.ok (ApplicationResponse.jsonWithHeaders _ _) => true
    | _ => false) = true := by decide
  cases hr : payments_to_payments_response errData none none AuthFlow.merchant
      "b" Operation.paymentStatus baseConfig none none none with
  | ok out =>
      cases out with
      | jsonWithHeaders resp hdrs =>
          have hfields := error_fields_forwarding errData none none
            AuthFlow.merchant "b" Operation.paymentStatus baseConfig none none
            none resp hdrs hr
          simp [Except.toOption, hfields.1, hfields.2.2.2, errData, baseAttempt]
      | form f p a c => rw [hr] at hshape; simp at hshape
  | error e => rw [hr] at hshape; simp at hshape

/-- The third-party-SDK predicate holds exactly on the source's two
conditions under operation PaymentConfirm. -/
theorem third_party_predicate_true (pa : PaymentAttempt)
    (H : ((pa.connector = some "trustpay" ∨ pa.connector = some "payme") ∧
        pa.payment_method = some PaymentMethod.wallet) ∨
      (pa.connector = some "plaid" ∧
        pa.payment_method = some PaymentMethod.openBanking ∧
        pa.payment_method_type = some PaymentMethodType.openBankingPIS)) :
    third_party_sdk_session_next_action pa Operation.paymentConfirm = true := by
  unfold third_party_sdk_session_next_action
  rcases H with ⟨hc | hc, hm⟩ | ⟨hc, hm, hmt⟩ <;>
    simp_all [opDebugName]

/-- C3: for operation confirm, when the attempt's connector is trustpay or
payme with a wallet payment method, or plaid with open-banking method and
open-banking-PIS method-type, the full payment response's next action is
ThirdPartySdkSessionToken, replacing whatever the precedence chain
resolved. -/
theorem third_party_sdk_override :
    ∀ (payment_data : PaymentData) (captures : Option (List String))
      (customer : Option Customer) (auth_flow : AuthFlow) (base_url : String)
      (cfg : ConnectorRequestReferenceIdConfig) (code : Option Nat)
      (latency : Option Nat) (lhe : Option Bool) (resp : PaymentsResponse)
      (headers : List (String × String)),
      (((payment_data.payment_attempt.connector = some "trustpay" ∨
          payment_data.payment_attempt.connector = some "payme") ∧
        payment_data.payment_attempt.payment_method =
          some PaymentMethod.wallet) ∨
      (payment_data.payment_attempt.connector = some "plaid" ∧
        payment_data.payment_attempt.payment_method =
          some PaymentMethod.openBanking ∧
        payment_data.payment_attempt.payment_method_type =
          some PaymentMethodType.openBankingPIS)) →
      payments_to_payments_response payment_data captures customer auth_flow
        base_url Operation.paymentConfirm cfg code latency lhe =
        Except.ok (ApplicationResponse.jsonWithHeaders resp headers) →
      resp.next_action = some (NextActionData.thirdPartySdkSessionToken
        payment_data.sessions_token.head?) := by
  intro payment_data captures customer auth_flow base_url cfg code latency lhe
    resp headers H h
  obtain ⟨_, _, _, bank, voucher, qr, fetch, paypal, wait, chain, _, _, _, _,
    _, _, _, hna⟩ := payments_response_json_fields payment_data captures
    customer auth_flow base_url Operation.paymentConfirm cfg code latency lhe
    resp headers h
  rw [hna, third_party_predicate_true payment_data.payment_attempt H]
  simp

/-- A confirm-flow aggregate routed through trustpay with a wallet payment
method and one session token. -/
def trustpayWalletData : PaymentData :=
  { basePaymentData with
    payment_attempt := { baseAttempt with
      connector := some "trustpay"
      payment_method := some PaymentMethod.wallet }
    sessions_token := [{ token := "tok_1" }] }

/-- Witness for C3 at the trustpay wallet aggregate under PaymentConfirm. -/
theorem third_party_sdk_override_witness :
    (payments_to_payments_response trustpayWalletData none none
      AuthFlow.merchant "b" Operation.paymentConfirm baseConfig none none
      none).toOption.map
      (fun out => match out with
        | ApplicationResponse.jsonWithHeaders resp _ => some resp.next_action
        | _ => none) =
      some (some (some (NextActionData.thirdPartySdkSessionToken
        (some { token := "tok_1" })))) := by
  have hshape : (match payments_to_payments_response trustpayWalletData none
      none AuthFlow.merchant "b" Operation.paymentConfirm baseConfig none none
      none with
    | Except.ok (ApplicationResponse.jsonWithHeaders _ _) => true
    | _ => false) = true := by decide
  cases hr : payments_to_payments_response trustpayWalletData none none
      AuthFlow.merchant "b" Operation.paymentConfirm baseConfig none none none with
  | ok out =>
      cases out with
      | jsonWithHeaders resp hdrs =>
          have hfield := third_party_sdk_override trustpayWalletData none none
            AuthFlow.merchant "b" baseConfig none none none resp hdrs
            (Or.inl ⟨Or.inl rfl, rfl⟩) hr
          simp [Except.toOption, hfield, trustpayWalletData]
      | form f p a c => rw [hr] at hshape; simp at hshape
  | error e => rw [hr] at hshape; simp at hshape

/-- The third-party-SDK predicate never holds on a voucher payment method
(the override needs wallet or open-banking). -/
theorem third_party_false_of_voucher (pa : PaymentAttempt) (op : Operation)
    (h : pa.payment_method = some PaymentMethod.voucher) :
    third_party_sdk_session_next_action pa op = false := by
  unfold third_party_sdk_session_next_action
  split
  · rw [h]
    cases hc : pa.connector with
    | none => rfl
    | some c =>
        cases hmt : pa.payment_method_type <;>
          simp [Option.map, Option.bind] <;>
            constructor <;> split <;> rfl
  · rfl

/-- An attempt whose metadata simultaneously satisfies the voucher shape and
a QR-code shape, but whose payment method is card. -/
def dualMetaCardAttempt : PaymentAttempt :=
  { baseAttempt with
    payment_method := some PaymentMethod.card
    connector_metadata := some { emptyMeta with
      next_steps_voucher := some { voucher_details := "v" }
      qr_code := some (QrCodeInformation.qrDataUrl "img" none) } }

/-- The aggregate around the card dual-shape attempt. -/
def dualMetaCardData : PaymentData :=
  { basePaymentData with payment_attempt := dualMetaCardAttempt }

/-- C5 counterexample: an Attempt whose metadata satisfies both the voucher
shape and a QR-code shape but whose payment method is card resolves to the
QR-code next action, not the voucher one — refuting the claim as stated for
arbitrary Attempts. -/
theorem next_action_precedence_counterexample :
    dualMetaCardAttempt.connector_metadata.bind
      (fun m => m.next_steps_voucher) = some { voucher_details := "v" } ∧
    dualMetaCardAttempt.connector_metadata.bind (fun m => m.qr_code) =
      some (QrCodeInformation.qrDataUrl "img" none) ∧
    (payments_to_payments_response dualMetaCardData none none
      AuthFlow.merchant "b" Operation.paymentStatus baseConfig none none
      none).toOption.map
      (fun out => match out with
        | ApplicationResponse.jsonWithHeaders resp _ => some resp.next_action
        | _ => none) =
      some (some (some (NextActionData.qrCodeInformation (some "img") none
        none))) := by
  refine ⟨rfl, rfl, by decide⟩

/-- C5 amended: for every Attempt with payment method voucher whose metadata
satisfies both the voucher shape and a QR-code shape, the resolved next
action is the voucher action and never the QR-code action; the precedence
chain emits at most one candidate (the next action is a single tagged
variant or absent). -/
theorem next_action_precedence_amended :
    ∀ (payment_data : PaymentData) (captures : Option (List String))
      (customer : Option Customer) (auth_flow : AuthFlow) (base_url : String)
      (operation : Operation) (cfg : ConnectorRequestReferenceIdConfig)
      (code : Option Nat) (latency : Option Nat) (lhe : Option Bool)
      (resp : PaymentsResponse) (headers : List (String × String))
      (m : ConnectorMetadata) (v : VoucherNextStepData)
      (q : QrCodeInformation),
      payment_data.payment_attempt.payment_method =
        some PaymentMethod.voucher →
      payment_data.payment_attempt.connector_metadata = some m →
      m.next_steps_voucher = some v →
      m.qr_code = some q →
      payments_to_payments_response payment_data captures customer auth_flow
        base_url operation cfg code latency lhe =
        Except.ok (ApplicationResponse.jsonWithHeaders resp headers) →
      resp.next_action = some (NextActionData.displayVoucherInformation v) ∧
      resp.next_action ≠ some (next_action_data_foreign_from_qr q) := by
  intro payment_data captures customer auth_flow base_url operation cfg code
    latency lhe resp headers m v q hpm hmeta hv hq h
  obtain ⟨_, _, _, bank, voucher, qr, fetch, paypal, wait, chain, hbank,
    hvoucher, hqr, hfetch, hpaypal, hwait, hchain, hna⟩ :=
    payments_response_json_fields payment_data captures customer auth_flow
      base_url operation cfg code latency lhe resp headers h
  have hbank2 : bank = none := by
    unfold bank_transfer_next_steps_check at hbank
    rw [hpm] at hbank
    simp at hbank
    exact hbank.symm
  have hvoucher2 : voucher = some v := by
    unfold voucher_next_steps_check at hvoucher
    rw [hpm, hmeta] at hvoucher
    simp [hv] at hvoucher
    exact hvoucher.symm
  subst hbank2
  subst hvoucher2
  have hchain2 : chain = some (NextActionData.displayVoucherInformation v) := by
    unfold resolve_next_action_chain at hchain
    simp only [Option.isSome_some, Bool.or_true, Bool.true_or, if_true] at hchain
    simp only [except_bind_ok] at hchain
    obtain ⟨tds, htds, hchain⟩ := hchain
    simp [Option.or, Option.map] at hchain
    exact hchain.symm
  have hfalse := third_party_false_of_voucher payment_data.payment_attempt
    operation hpm
  rw [hna, hfalse, hchain2]
  constructor
  · rfl
  · intro hcontra
    cases q <;> simp [next_action_data_foreign_from_qr] at hcontra

/-- An aggregate with voucher payment method and dual-shape metadata. -/
def dualMetaVoucherData : PaymentData :=
  { basePaymentData with
    payment_attempt := { baseAttempt with
      payment_method := some PaymentMethod.voucher
      connector_metadata := some { emptyMeta with
        next_steps_voucher := some { voucher_details := "v" }
        qr_code := some (QrCodeInformation.qrDataUrl "img" none) } } }

/-- Witness for the amended C5: the voucher attempt with dual-shape metadata
resolves to the voucher action. -/
theorem next_action_precedence_amended_witness :
    (payments_to_payments_response dualMetaVoucherData none none
      AuthFlow.merchant "b" Operation.paymentStatus baseConfig none none
      none).toOption.map
      (fun out => match out with
        | ApplicationResponse.jsonWithHeaders resp _ => some resp.next_action
        | _ => none) =
      some (some (some (NextActionData.displayVoucherInformation
        { voucher_details := "v" }))) := by
  have hshape : (match payments_to_payments_response dualMetaVoucherData none
      none AuthFlow.merchant "b" Operation.paymentStatus baseConfig none none
      none with
    | Except.ok (ApplicationResponse.jsonWithHeaders _ _) => true
    | _ => false) = true := by decide
  cases hr : payments_to_payments_response dualMetaVoucherData none none
      AuthFlow.merchant "b" Operation.paymentStatus baseConfig none none none with
  | ok out =>
      cases out with
      | jsonWithHeaders resp hdrs =>
          have hfield := (next_action_precedence_amended dualMetaVoucherData
            none none AuthFlow.merchant "b" Operation.paymentStatus baseConfig
            none none none resp hdrs _ { voucher_details := "v" }
            (QrCodeInformation.qrDataUrl "img" none) rfl rfl rfl rfl hr).1
          simp [Except.toOption, hfield]
      | form f p a c => rw [hr] at hshape; simp at hshape
  | error e => rw [hr] at hshape; simp at hshape

/-- The Ada blob of the spec's example: name present, no email. -/
def adaBlob : CustomerData :=
  { name := some "Ada", email := none, phone := none
    phone_country_code := none }

/-- The customer-table record of the spec's example: an email and a
(differing) name. -/
def adaCustomer : Customer :=
  { customer_id := "cus_1", name := some "Tbl", email := some "a@b.com"
    phone := none, phone_country_code := none }

/-- C7: with a decodable customer blob, the synthesized customer response
takes each field from the blob when present, falls back to the
customer-table record per field, and fills id from the table record; with an
undecodable (or absent) blob it falls back entirely to the customer-table
projection; the full response's customer field is exactly this
reconciliation; and the Ada/email example resolves as the spec states. -/
theorem customer_details_reconciliation :
    (∀ (blob : CustomerData) (customer : Option Customer),
      customer_details_response_of (some (some blob)) customer = some
        { id := (customer.map customer_foreign_into).bind fun c => c.id
          name := blob.name.or (customer.bind fun c => c.name)
          email := blob.email.or (customer.bind fun c => c.email)
          phone := blob.phone.or (customer.bind fun c => c.phone)
          phone_country_code := blob.phone_country_code.or
            (customer.bind fun c => c.phone_country_code) }) ∧
    (∀ (customer : Option Customer),
      customer_details_response_of (some none) customer =
        customer.map customer_foreign_into) ∧
    (∀ (customer : Option Customer),
      customer_details_response_of none customer =
        customer.map customer_foreign_into) ∧
    (∀ (payment_data : PaymentData) (captures : Option (List String))
      (customer : Option Customer) (auth_flow : AuthFlow) (base_url : String)
      (operation : Operation) (cfg : ConnectorRequestReferenceIdConfig)
      (code : Option Nat) (latency : Option Nat) (lhe : Option Bool)
      (resp : PaymentsResponse) (headers : List (String × String)),
      payments_to_payments_response payment_data captures customer auth_flow
        base_url operation cfg code latency lhe =
        Except.ok (ApplicationResponse.jsonWithHeaders resp headers) →
      resp.customer = customer_details_response_of
        payment_data.payment_intent.customer_details customer) ∧
    customer_details_response_of (some (some adaBlob)) (some adaCustomer) =
      some { id := some "cus_1", name := some "Ada", email := some "a@b.com"
             phone := none, phone_country_code := none } := by
  refine ⟨fun blob customer => rfl, fun customer => rfl, fun customer => rfl,
    ?_, by decide⟩
  intro payment_data captures customer auth_flow base_url operation cfg code
    latency lhe resp headers h
  exact (payments_response_json_fields payment_data captures customer
    auth_flow base_url operation cfg code latency lhe resp headers h).2.2.1

/-- The Ada aggregate: the intent carries the decodable Ada blob. -/
def adaData : PaymentData :=
  { basePaymentData with
    payment_intent := { baseIntent with
      customer_details := some (some adaBlob) } }

/-- Witness for C7: the full response on the Ada aggregate with the
email-bearing table record reconciles name from the blob and email from the
table. -/
theorem customer_details_reconciliation_witness :
    (payments_to_payments_response adaData none (some adaCustomer)
      AuthFlow.merchant "b" Operation.paymentStatus baseConfig none none
      none).toOption.map
      (fun out => match out with
        | ApplicationResponse.jsonWithHeaders resp _ => some resp.customer
        | _ => none) =
      some (some (some { id := some "cus_1", name := some "Ada",
                         email := some "a@b.com", phone := none,
                         phone_country_code := none })) := by
  have hshape : (match payments_to_payments_response adaData none
      (some adaCustomer) AuthFlow.merchant "b" Operation.paymentStatus
      baseConfig none none none with
    | Except.ok (ApplicationResponse.jsonWithHeaders _ _) => true
    | _ => false) = true := by decide
  cases hr : payments_to_payments_response adaData none (some adaCustomer)
      AuthFlow.merchant "b" Operation.paymentStatus baseConfig none none none with
  | ok out =>
      cases out with
      | jsonWithHeaders resp hdrs =>
          have hfield := customer_details_reconciliation.2.2.2.1 adaData none
            (some adaCustomer) AuthFlow.merchant "b" Operation.paymentStatus
            baseConfig none none none resp hdrs hr
          simp [Except.toOption, hfield]
          decide
      | form f p a c => rw [hr] at hshape; simp at hshape
  | error e => rw [hr] at hshape; simp at hshape

end Hyperswitch
